import Mathlib

/-!
Verification development for the RISC-V Dynamic Tables pipeline:
shallow embedding of the FDT-to-CmObj parsers
(DynamicTablesPkg/Library/FdtHwInfoParserLib/RiscV/Apic/RiscVRintcParser.c),
the table-presence verifier
(DynamicTablesPkg/Drivers/DynamicTableManagerDxe/RiscVDynamicTableManagerDxe.c),
the SSDT PCIe GSI lookup
(DynamicTablesPkg/Library/Acpi/Common/AcpiSsdtPcieLib/RiscV/RiscVSsdtPcieGenerator.c),
the SSDT CPU-topology generator
(DynamicTablesPkg/Library/Acpi/Common/AcpiSsdtCpuTopologyLib/RiscVSsdtCpuTopologyGenerator.c)
and the CmObj token fixer
(DynamicTablesPkg/Library/Common/DynamicPlatRepoLib/CmObjectTokenFixer.c).

Machine integers are modelled as Nat with explicit reductions modulo 2^w at the
points where the C code reads a device-tree cell or stores into a fixed-width
struct field.  Fallible C functions returning EFI_STATUS are modelled with
Except / explicit status results.
-/

/-- Status codes used by the embedded functions (the relevant EFI_STATUS values). -/
inductive EFI_STATUS where
  | success
  | notFound
  | alreadyStarted
  | invalidParameter
  | unsupported
  | aborted
  | outOfResources
  deriving DecidableEq

deriving instance DecidableEq for Except

/-- Success flag of an Except result. -/
def exceptIsOk {ε α : Type} (r : Except ε α) : Bool :=
  match r with
  | .ok _ => true
  | .error _ => false

/-- Width bound of a 8-bit unsigned field. -/
def U8 : Nat := 2 ^ 8

/-- Width bound of a 16-bit unsigned field. -/
def U16 : Nat := 2 ^ 16

/-- Width bound of a 32-bit unsigned field. -/
def U32 : Nat := 2 ^ 32

/-- Width bound of a 64-bit unsigned field. -/
def U64 : Nat := 2 ^ 64

/-- Model of reading a 32-bit device-tree cell: fdt32_to_cpu (ReadUnaligned32 ...). -/
def fdt32 (x : Nat) : Nat := x % U32

/-- Model of reading a 64-bit device-tree quantity: fdt64_to_cpu (ReadUnaligned64 ...). -/
def fdt64 (x : Nat) : Nat := x % U64

/-- RISC-V supervisor external interrupt number, compared against the
interrupt-type cell of interrupts-extended entries.  The macro is defined in a
header outside this repository slice; its concrete value (9, per the RISC-V
privileged specification) only matters for equality tests. -/
def IRQ_S_EXT : Nat := 9

/-! ## CMO info parser — RiscVRintcParser.c, RhctCmoGetBlockSize and CreateCmoInfo -/

/-- Loop body of RhctCmoGetBlockSize:
`while (Val > 1) { Ret++; Val >>= 1; }`.
`Ret` is a UINT32, so its increment wraps modulo 2^32.  The first argument is
the value `Ret` holds when the loop starts.  The recursion is driven by a fuel
argument for structural termination; fuel is adequate whenever it is at least
the number of iterations, which is at most log2 of the initial `Val`, so
passing the initial `Val` itself as fuel computes exactly the C loop. -/
def rhctCmoLoop : Nat → Nat → Nat → Nat
  | 0, ret, _ => ret
  | fuel + 1, ret, val => if 1 < val then rhctCmoLoop fuel ((ret + 1) % U32) (val / 2) else ret

/-- RhctCmoGetBlockSize from RiscVRintcParser.c.  The local `UINT32 Ret` is
declared without an initializer and is only ever incremented, so the function
returns `retUninit + log2 val` (mod 2^32) where `retUninit` is whatever value
the uninitialized variable happens to hold. -/
def RhctCmoGetBlockSize (retUninit val : Nat) : Nat :=
  rhctCmoLoop val retUninit val

/-- CM_RISCV_CMO_NODE (RiscVNameSpaceObjects.h): three UINT8 block-size exponents. -/
structure CM_RISCV_CMO_NODE where
  CbomBlockSize : Nat
  CbopBlockSize : Nat
  CbozBlockSize : Nat
  deriving DecidableEq

/-- Device-tree properties of one cpu node that CreateCmoInfo reads:
riscv,cbom-block-size, riscv,cboz-block-size, riscv,cbop-block-size.
`none` models an absent property (fdt_getprop returning NULL). -/
structure CmoProps where
  cbom : Option Nat
  cboz : Option Nat
  cbop : Option Nat
  deriving DecidableEq

/-- CreateCmoInfo from RiscVRintcParser.c.  The `found` argument is the static
`FoundCmo` latch on entry; the result pairs the latch value on exit with the
CmObj emitted via AddSingleCmObj, if any.  `g1 g2 g3` model the value the
uninitialized `Ret` of RhctCmoGetBlockSize holds at each of the three call
sites.  Note the early return when riscv,cbom-block-size is absent: the three
zero stores to CmoInfo are dead and no CmObj is added, and the latch stays
clear. -/
def CreateCmoInfo (g1 g2 g3 : Nat) (p : CmoProps) (found : Bool) :
    Bool × Option CM_RISCV_CMO_NODE :=
  if found then (found, none)
  else
    match p.cbom with
    | none => (found, none)
    | some vbom =>
      let bom := RhctCmoGetBlockSize g1 (fdt32 vbom) % U8
      let boz :=
        match p.cboz with
        | none => 0
        | some v => RhctCmoGetBlockSize g2 (fdt32 v) % U8
      let bop :=
        match p.cbop with
        | none => 0
        | some v => RhctCmoGetBlockSize g3 (fdt32 v) % U8
      (true, some { CbomBlockSize := bom, CbopBlockSize := bop, CbozBlockSize := boz })

/-! ## Timer info parser — RiscVRintcParser.c, CreateTimerInfo -/

/-- CM_RISCV_TIMER_INFO (RiscVNameSpaceObjects.h): UINT8 TimerCannotWakeCpu,
UINT64 TimeBaseFrequency. -/
structure CM_RISCV_TIMER_INFO where
  TimerCannotWakeCpu : Nat
  TimeBaseFrequency : Nat
  deriving DecidableEq

/-- Global device-tree facts CreateTimerInfo reads: whether /cpus exists, its
timebase-frequency property, and the S-mode riscv,timer node if any
(`some b` with `b` the presence of riscv,timer-cannot-wake-cpu). -/
structure TimerGlobals where
  cpusNodePresent : Bool
  timebaseFreq : Option Nat
  timerNode : Option Bool
  deriving DecidableEq

/-- CreateTimerInfo from RiscVRintcParser.c.  `found` is the static FoundTimer
latch on entry; result is latch on exit plus the emitted CmObj if any.
`garbage` models the value of the uninitialized local TimerInfo.TimerCannotWakeCpu
when no riscv,timer compatible node is found (FdtGetCompatSmodeNode fails): the
record is still added in that case with the field never assigned. -/
def CreateTimerInfo (garbage : Nat) (g : TimerGlobals) (found : Bool) :
    Bool × Option CM_RISCV_TIMER_INFO :=
  if g.cpusNodePresent = false then (found, none)
  else if found then (found, none)
  else
    match g.timebaseFreq with
    | none => (found, none)
    | some f =>
      let wake : Nat :=
        match g.timerNode with
        | some cw => if cw then 1 else 0
        | none => garbage % U8
      (true, some { TimerCannotWakeCpu := wake % U8, TimeBaseFrequency := fdt32 f % U64 })

/-! ## ISA string parser — RiscVRintcParser.c, CreateIsaStringInfo -/

/-- CM_RISCV_ISA_STRING_NODE: the emitted object carries the property length
(and the copied string, abstracted away here as its length). -/
structure CM_RISCV_ISA_STRING_NODE where
  Length : Nat
  deriving DecidableEq

/-- CreateIsaStringInfo from RiscVRintcParser.c.  `isaProp` is the riscv,isa
property of the visited cpu node (its length when present); `found` is the
static FoundIsa latch on entry. -/
def CreateIsaStringInfo (isaProp : Option Nat) (found : Bool) :
    Bool × Option CM_RISCV_ISA_STRING_NODE :=
  if found then (found, none)
  else
    match isaProp with
    | none => (found, none)
    | some len => (true, some { Length := len })

/-! ## Table-presence verifier — RiscVDynamicTableManagerDxe.c -/

/-- Bit set on a checklist entry declared in the platform ACPI-table-info list. -/
def ACPI_TABLE_PRESENT_INFO_LIST : Nat := 1

/-- Bit set on a checklist entry already installed in the live ACPI system. -/
def ACPI_TABLE_PRESENT_INSTALLED : Nat := 2

/-- One entry of mAcpiVerifyTables as the classification loop sees it: the
mandatory flag and the two-bit Presence mask accumulated by the earlier
phases. -/
structure ACPI_TABLE_PRESENCE_INFO where
  IsMandatory : Bool
  Presence : Nat
  deriving DecidableEq

/-- Body of the classification loop of VerifyMandatoryTablesArePresent
(RiscVDynamicTableManagerDxe.c, lines 119-133): a missing mandatory entry
overwrites Status with NOT_FOUND, an entry with both presence bits overwrites
Status with ALREADY_STARTED, every other entry leaves Status unchanged. -/
def verifyClassifyStep (st : EFI_STATUS) (e : ACPI_TABLE_PRESENCE_INFO) : EFI_STATUS :=
  if e.Presence = 0 then
    if e.IsMandatory then .notFound else st
  else if e.Presence = (ACPI_TABLE_PRESENT_INFO_LIST ||| ACPI_TABLE_PRESENT_INSTALLED) then
    .alreadyStarted
  else
    st

/-- Classification phase of VerifyMandatoryTablesArePresent: Status is reset to
EFI_SUCCESS and then every checklist entry is classified in order, without
short-circuiting. -/
def VerifyMandatoryTablesArePresent (entries : List ACPI_TABLE_PRESENCE_INFO) : EFI_STATUS :=
  entries.foldl verifyClassifyStep .success

/-! ## GSI lookup — RiscVSsdtPcieGenerator.c, ArchGetGsiIrqId -/

/-- The fields of a CM_RISCV_APLIC_INFO / CM_RISCV_PLIC_INFO record that
ArchGetGsiIrqId reads. -/
structure IC_GSI_RECORD where
  Phandle : Nat
  GsiBase : Nat
  deriving DecidableEq

/-- Result of ArchGetGsiIrqId.  The C function always returns a UINT32; paths
that execute ASSERT (0) first are distinguished because ASSERT is a hard
failure in debug builds (and a silent fall-through in release builds). -/
inductive ARCH_GSI_RESULT where
  | ok (gsi : Nat)
  | assertFail (gsi : Nat)
  deriving DecidableEq

/-- ArchGetGsiIrqId from RiscVSsdtPcieGenerator.c.  The two record sets model
GetERiscVObjAplicInfo / GetERiscVObjPlicInfo, which return EFI_NOT_FOUND
exactly when no record of the type exists.  Note the control flow: the PLIC
set is consulted only when the APLIC query fails with EFI_NOT_FOUND (empty
APLIC set), and when both queries fail the function falls through to the final
`return IrqId` without asserting. -/
def ArchGetGsiIrqId (aplics plics : List IC_GSI_RECORD) (irqId intcPhandle : Nat) :
    ARCH_GSI_RESULT :=
  if aplics ≠ [] then
    match aplics.find? (fun a => a.Phandle = intcPhandle) with
    | some a => .ok ((irqId + a.GsiBase) % U32)
    | none => .assertFail (irqId % U32)
  else if plics ≠ [] then
    match plics.find? (fun p => p.Phandle = intcPhandle) with
    | some p => .ok ((irqId + p.GsiBase) % U32)
    | none => .assertFail (irqId % U32)
  else
    .ok (irqId % U32)

/-! ## CmObj token fixer — CmObjectTokenFixer.c -/

/-- Namespace id of the Arm namespace inside a CM_OBJECT_ID.
Modelled from the spec: the composite CmObjectId key decomposes into
(NamespaceId, ObjectTypeId); the numeric namespace ids live in a header outside
this repository slice, only their distinctness matters here. -/
def EObjNameSpaceArm : Nat := 1

/-- Namespace id of the RISC-V namespace inside a CM_OBJECT_ID.
Modelled from the spec: distinct from EObjNameSpaceArm. -/
def EObjNameSpaceRiscV : Nat := 3

/-- Number of entries of the TokenFixer table (EArmObjMax): the table literal
in CmObjectTokenFixer.c has entries for object ids 0 through 39. -/
def EArmObjMax : Nat := 40

/-- Kind of a non-NULL TokenFixer table entry: either one of the four fixers
that store the token into the object (ItsGroup, NamedComponent, RootComplex,
SmmuV3), or TokenFixerNotImplemented which asserts and returns
EFI_UNSUPPORTED. -/
inductive TOKEN_FIXER_KIND where
  | writesToken
  | notImplemented
  deriving DecidableEq

/-- The TokenFixer function table of CmObjectTokenFixer.c, by Arm-namespace
object id: entries 18 (ItsGroup), 19 (NamedComponent), 20 (RootComplex) and
22 (SmmuV3) write the token; 21, 23, 27, 28 and 29 hold
TokenFixerNotImplemented; all other entries are NULL. -/
def TokenFixer (i : Nat) : Option TOKEN_FIXER_KIND :=
  if i = 18 ∨ i = 19 ∨ i = 20 ∨ i = 22 then some .writesToken
  else if i = 21 ∨ i = 23 ∨ i = 27 ∨ i = 28 ∨ i = 29 then some .notImplemented
  else none

/-- A CM_OBJ_DESCRIPTOR as FixupCmObjectSelfToken sees it: the decomposed
object id plus the object payload, abstracted as its self-token field and the
remaining bytes. -/
structure CM_OBJ_DESCRIPTOR where
  nsId : Nat
  objId : Nat
  token : Nat
  rest : Nat
  deriving DecidableEq

/-- FixupCmObjectSelfToken from CmObjectTokenFixer.c (non-null descriptor):
non-Arm namespace is rejected with EFI_UNSUPPORTED; an Arm object id at or
beyond EArmObjMax is rejected with EFI_INVALID_PARAMETER; a NULL table entry
succeeds without touching the object; a TokenFixerNotImplemented entry returns
EFI_UNSUPPORTED (propagated) without touching the object; the four writing
fixers store the token into the object. -/
def FixupCmObjectSelfToken (d : CM_OBJ_DESCRIPTOR) (tok : Nat) :
    EFI_STATUS × CM_OBJ_DESCRIPTOR :=
  if d.nsId ≠ EObjNameSpaceArm then (.unsupported, d)
  else if EArmObjMax ≤ d.objId then (.invalidParameter, d)
  else
    match TokenFixer d.objId with
    | none => (.success, d)
    | some .writesToken => (.success, { d with token := tok })
    | some .notImplemented => (.unsupported, d)

/-! ## CPU / RINTC parser — RiscVRintcParser.c, CpuNodeParser and CpusNodeParser -/

/-- CM_RISCV_RINTC_INFO (RiscVNameSpaceObjects.h, plus the IntcPhandle scratch
field the parser writes; the parsers in RiscVRintcParser.c assign it even
though the header revision in this tree does not list it).  Field widths:
Version and the tokens are machine words, AcpiProcessorUid, ExtIntCId and
ImsicSize are UINT32, HartId and ImsicBaseAddress are UINT64. -/
structure CM_RISCV_RINTC_INFO where
  Version : Nat
  Flags : Nat
  HartId : Nat
  AcpiProcessorUid : Nat
  ExtIntCId : Nat
  ImsicBaseAddress : Nat
  ImsicSize : Nat
  IntcPhandle : Nat
  CpcToken : Nat
  EtToken : Nat
  deriving DecidableEq

/-- All-zero RINTC record: the parse buffer comes from AllocateZeroPool. -/
def zeroRintc : CM_RISCV_RINTC_INFO :=
  { Version := 0, Flags := 0, HartId := 0, AcpiProcessorUid := 0, ExtIntCId := 0,
    ImsicBaseAddress := 0, ImsicSize := 0, IntcPhandle := 0, CpcToken := 0, EtToken := 0 }

instance : Inhabited CM_RISCV_RINTC_INFO := ⟨zeroRintc⟩

/-- One "cpu" child node of the "cpus" node as CpuNodeParser reads it:
the "riscv" compatibility, the reg property (byte length and value; length 0
models an absent property), the phandle of the interrupt-controller child
node, and the properties consumed by the three singleton creators, together
with the residual values of their uninitialized locals. -/
structure CpuDtNode where
  compatible : Bool
  regLen : Nat
  regVal : Nat
  intcPhandle : Option Nat
  cmo : CmoProps
  isa : Option Nat
  gCmo1 : Nat
  gCmo2 : Nat
  gCmo3 : Nat
  gTimer : Nat
  deriving DecidableEq

/-- Session-scoped parser state: the three static singleton latches of
RiscVRintcParser.c (FoundCmo, FoundIsa, FoundTimer) and the singleton CmObjs
added so far via AddSingleCmObj. -/
structure SingletonState where
  foundCmo : Bool
  foundIsa : Bool
  foundTimer : Bool
  cmoObjs : List CM_RISCV_CMO_NODE
  isaObjs : List CM_RISCV_ISA_STRING_NODE
  timerObjs : List CM_RISCV_TIMER_INFO
  deriving DecidableEq

/-- Parser state at the start of a run: the static latches are
zero-initialized and no singleton object has been emitted. -/
def initSingletonState : SingletonState :=
  { foundCmo := false, foundIsa := false, foundTimer := false,
    cmoObjs := [], isaObjs := [], timerObjs := [] }

/-- CpuNodeParser from RiscVRintcParser.c.  A missing or wrongly sized reg
property aborts before any side effect.  Otherwise the RINTC record is filled
(Flags := EFI_ACPI_6_6_RINTC_FLAG_ENABLE = 1, Version := 1, HartId from reg
according to AddressCells, AcpiProcessorUid := the static ProcUid counter
passed as `uid`, ExtIntCId := 0, IntcPhandle from the interrupt-controller
child when it has a phandle, all other fields left at their AllocateZeroPool
zeros) and the three singleton creators run in source order (CMO, ISA string,
timer).  A failing interrupt-controller child lookup is not propagated: the
function still returns EFI_SUCCESS (the assigned Status is never returned). -/
def CpuNodeParser (g : TimerGlobals) (addressCells : Nat) (node : CpuDtNode) (uid : Nat)
    (s : SingletonState) : Except EFI_STATUS CM_RISCV_RINTC_INFO × SingletonState :=
  if node.regLen ≠ 4 ∧ node.regLen ≠ 8 then (.error .aborted, s)
  else
    let hartId := if addressCells = 2 then fdt64 node.regVal else fdt32 node.regVal
    let phandle :=
      match node.intcPhandle with
      | some p => fdt32 p
      | none => 0
    let r : CM_RISCV_RINTC_INFO :=
      { Version := 1, Flags := 1, HartId := hartId, AcpiProcessorUid := uid % U32,
        ExtIntCId := 0, ImsicBaseAddress := 0, ImsicSize := 0, IntcPhandle := phandle,
        CpcToken := 0, EtToken := 0 }
    let cmoRes := CreateCmoInfo node.gCmo1 node.gCmo2 node.gCmo3 node.cmo s.foundCmo
    let isaRes := CreateIsaStringInfo node.isa s.foundIsa
    let timerRes := CreateTimerInfo node.gTimer g s.foundTimer
    (.ok r,
      { foundCmo := cmoRes.1, foundIsa := isaRes.1, foundTimer := timerRes.1,
        cmoObjs := s.cmoObjs ++ cmoRes.2.toList,
        isaObjs := s.isaObjs ++ isaRes.2.toList,
        timerObjs := s.timerObjs ++ timerRes.2.toList })

/-- Iteration of CpusNodeParser over the "cpu" children: each node must be
"riscv"-compatible (otherwise EFI_UNSUPPORTED), is parsed by CpuNodeParser
(whose error aborts the loop), and the static ProcUid counter (a UINT32) is
post-incremented per parsed node.  Side effects performed before a failure
persist, so the singleton state is returned on every path. -/
def cpusLoop (g : TimerGlobals) (addressCells : Nat) :
    List CpuDtNode → Nat → SingletonState →
    Except EFI_STATUS (List CM_RISCV_RINTC_INFO) × SingletonState
  | [], _, s => (.ok [], s)
  | n :: rest, uid, s =>
    if n.compatible = false then (.error .unsupported, s)
    else
      let pr := CpuNodeParser g addressCells n uid s
      match pr.1 with
      | .error e => (.error e, pr.2)
      | .ok r =>
        let tail := cpusLoop g addressCells rest ((uid + 1) % U32) pr.2
        match tail.1 with
        | .error e => (.error e, tail.2)
        | .ok rs => (.ok (r :: rs), tail.2)

/-- CpusNodeParser from RiscVRintcParser.c: counts the "cpu" children (zero is
EFI_NOT_FOUND), then parses each of them in device-tree enumeration order;
on success the CpuNodeCount records are handed over as one descriptor. -/
def CpusNodeParser (g : TimerGlobals) (addressCells : Nat) (nodes : List CpuDtNode)
    (procUid : Nat) (s : SingletonState) :
    Except EFI_STATUS (List CM_RISCV_RINTC_INFO) × SingletonState :=
  if nodes.length = 0 then (.error .notFound, s)
  else cpusLoop g addressCells nodes procUid s

/-- Helper: well-formedness of a cpu node making CpuNodeParser succeed:
"riscv"-compatible with a 32- or 64-bit reg property. -/
def cpuNodeWf (n : CpuDtNode) : Prop :=
  n.compatible = true ∧ (n.regLen = 4 ∨ n.regLen = 8)

instance (n : CpuDtNode) : Decidable (cpuNodeWf n) := by
  unfold cpuNodeWf
  infer_instance

/-- RINTC record list of a cpus-parser result (the empty list on error). -/
def rintcListOf (r : Except EFI_STATUS (List CM_RISCV_RINTC_INFO)) :
    List CM_RISCV_RINTC_INFO :=
  match r with
  | .ok rs => rs
  | .error _ => []

/-- Timer globals of the demonstration device tree: /cpus present,
timebase-frequency = 10000000, riscv,timer node without the cannot-wake
property. -/
def demoTimerGlobals : TimerGlobals :=
  { cpusNodePresent := true, timebaseFreq := some 10000000, timerNode := some false }

/-- Two well-formed demonstration cpu nodes. -/
def demoCpuNodes : List CpuDtNode :=
  [{ compatible := true, regLen := 4, regVal := 0, intcPhandle := some 1,
     cmo := { cbom := none, cboz := none, cbop := none }, isa := some 5,
     gCmo1 := 0, gCmo2 := 0, gCmo3 := 0, gTimer := 0 },
   { compatible := true, regLen := 8, regVal := 1, intcPhandle := some 2,
     cmo := { cbom := none, cboz := none, cbop := none }, isa := some 5,
     gCmo1 := 0, gCmo2 := 0, gCmo3 := 0, gTimer := 0 }]

/-- Invariant tying each singleton latch to the number of objects of its kind
emitted so far: a clear latch means nothing emitted, and never more than one
object of each kind exists. -/
def latchInv (s : SingletonState) : Prop :=
  (s.foundCmo = false → s.cmoObjs = []) ∧ s.cmoObjs.length ≤ 1 ∧
  (s.foundIsa = false → s.isaObjs = []) ∧ s.isaObjs.length ≤ 1 ∧
  (s.foundTimer = false → s.timerObjs = []) ∧ s.timerObjs.length ≤ 1

/-! ## PLIC and APLIC parsers — RiscVRintcParser.c, PlicRintcInfoParser and
AplicRintcInfoParser -/

/-- ACPI_BUILD_EXT_INTC_ID macro (RiscVRintcParser.c line 18):
(PlicAplicId << 24) | CtxIdcId. -/
def ACPI_BUILD_EXT_INTC_ID (plicAplicId ctxIdcId : Nat) : Nat :=
  (plicAplicId <<< 24) ||| ctxIdcId

/-- RiscVFindRintc combined with the store through the returned pointer:
update the ExtIntCId of the first RINTC record whose IntcPhandle equals the
phandle; `none` models RiscVFindRintc returning NULL. -/
def patchRintc (rs : List CM_RISCV_RINTC_INFO) (ph v : Nat) :
    Option (List CM_RISCV_RINTC_INFO) :=
  match rs with
  | [] => none
  | r :: rest =>
    if r.IntcPhandle = ph then some ({ r with ExtIntCId := v } :: rest)
    else (patchRintc rest ph v).map (r :: ·)

/-- Patch loop of PlicRintcInfoParser (lines 689-701): iterate the
interrupts-extended (phandle, type) pairs, with `j` the running pair index;
for each supervisor-external entry, find the RINTC record matching the
phandle — a miss is EFI_INVALID_PARAMETER — and store
(PlicId << 24) | (2 * (j / 2) + 1) into its UINT32 ExtIntCId. -/
def plicPatchLoop (plicId : Nat) : Nat → List (Nat × Nat) → List CM_RISCV_RINTC_INFO →
    Except EFI_STATUS (List CM_RISCV_RINTC_INFO)
  | _, [], rs => .ok rs
  | j, (ph, ty) :: rest, rs =>
    if ty = IRQ_S_EXT then
      match patchRintc rs (fdt32 ph)
          (ACPI_BUILD_EXT_INTC_ID plicId (2 * (j / 2) + 1) % U32) with
      | none => .error .invalidParameter
      | some rs1 => plicPatchLoop plicId (j + 1) rest rs1
    else plicPatchLoop plicId (j + 1) rest rs

/-- Patch loop of AplicRintcInfoParser (lines 848-858): iterate ALL
interrupts-extended pairs (no interrupt-type filter), with `k` the running
pair index (i / 2 in the C code); a miss is EFI_NOT_FOUND; the stored value is
(AplicId << 24) | k. -/
def aplicPatchLoop (aplicId : Nat) : Nat → List (Nat × Nat) → List CM_RISCV_RINTC_INFO →
    Except EFI_STATUS (List CM_RISCV_RINTC_INFO)
  | _, [], rs => .ok rs
  | k, (ph, _) :: rest, rs =>
    match patchRintc rs (fdt32 ph) (ACPI_BUILD_EXT_INTC_ID aplicId k % U32) with
    | none => .error .notFound
    | some rs1 => aplicPatchLoop aplicId (k + 1) rest rs1

/-- CM_RISCV_PLIC_INFO (RiscVNameSpaceObjects.h) as the parser fills it, plus
the Phandle field the parser assigns (the header revision in this tree does
not list it).  HwId is never assigned (ZeroMem) and is omitted.  NumSources
and MaxPriority are UINT16, PlicSize and GsiBase are UINT32, PlicAddress is
UINT64. -/
structure CM_RISCV_PLIC_INFO where
  Version : Nat
  PlicId : Nat
  NumSources : Nat
  MaxPriority : Nat
  Flags : Nat
  PlicSize : Nat
  PlicAddress : Nat
  GsiBase : Nat
  Phandle : Nat
  deriving DecidableEq

/-- All-zero PLIC record (ZeroMem). -/
def zeroPlic : CM_RISCV_PLIC_INFO :=
  { Version := 0, PlicId := 0, NumSources := 0, MaxPriority := 0, Flags := 0,
    PlicSize := 0, PlicAddress := 0, GsiBase := 0, Phandle := 0 }

/-- CM_RISCV_APLIC_INFO (RiscVNameSpaceObjects.h) as the parser fills it, plus
Phandle.  NumIdcs and NumSources are UINT16, AplicSize and GsiBase are UINT32,
AplicAddress is UINT64. -/
structure CM_RISCV_APLIC_INFO where
  Version : Nat
  AplicId : Nat
  Flags : Nat
  NumIdcs : Nat
  NumSources : Nat
  GsiBase : Nat
  AplicAddress : Nat
  AplicSize : Nat
  Phandle : Nat
  deriving DecidableEq

/-- One riscv,plic0-compatible device-tree node as PlicRintcInfoParser reads
it: the interrupts-extended property as (phandle, interrupt-type) cell pairs
(an empty list models an absent or too-short property), the reg property as
two 64-bit quantities, riscv,ndev and the node's phandle.  The
EFI_INVALID_PARAMETER branches for an absent reg / riscv,ndev / phandle
property are not modelled: the input carries those properties. -/
structure PlicDtNode where
  intExt : List (Nat × Nat)
  regAddr : Nat
  regSize : Nat
  ndev : Nat
  phandle : Nat
  deriving DecidableEq

/-- One S-mode riscv,aplic-compatible node as AplicRintcInfoParser reads it
(the node list is assumed already filtered by FdtNodeIsCompatible and
IsSmodeAplic, which is node traversal outside this model).  `intExt = none`
models an absent (or odd-celled) interrupts-extended property: the patch loop
and the NumIdcs assignment are skipped in that case, without error. -/
structure AplicDtNode where
  intExt : Option (List (Nat × Nat))
  regAddr : Nat
  regSize : Nat
  numSources : Nat
  phandle : Nat
  deriving DecidableEq

/-- PlicRintcInfoParser from RiscVRintcParser.c, over the riscv,plic0 nodes in
device-tree iteration order.  Per node: an absent/short interrupts-extended
property is EFI_INVALID_PARAMETER; the patch loop back-patches the RINTC
records; then the CM_RISCV_PLIC_INFO record is built — NumSources from
riscv,ndev truncated to its UINT16 field, GsiBase from the running UINT32
PlicGsiBase accumulator which then advances by NumSources, PlicId from the
post-incremented instance counter — and added via AddSingleCmObj. -/
def plicParse : List PlicDtNode → List CM_RISCV_RINTC_INFO → Nat → Nat →
    Except EFI_STATUS (List CM_RISCV_RINTC_INFO × List CM_RISCV_PLIC_INFO)
  | [], rs, _, _ => .ok (rs, [])
  | node :: rest, rs, plicId, gsiBase =>
    if node.intExt = [] then .error .invalidParameter
    else
      match plicPatchLoop plicId 0 node.intExt rs with
      | .error e => .error e
      | .ok rs1 =>
        let numSources := fdt32 node.ndev % U16
        let rec0 : CM_RISCV_PLIC_INFO :=
          { Version := 1, PlicId := plicId % U8, NumSources := numSources,
            MaxPriority := 0, Flags := 0, PlicSize := fdt64 node.regSize % U32,
            PlicAddress := fdt64 node.regAddr, GsiBase := gsiBase,
            Phandle := fdt32 node.phandle }
        match plicParse rest rs1 (plicId + 1) ((gsiBase + numSources) % U32) with
        | .error e => .error e
        | .ok (rs2, recs) => .ok (rs2, rec0 :: recs)

/-- Patch step of AplicRintcInfoParser: run the patch loop only when the
interrupts-extended property is present (and evenly sized). -/
def aplicPatchStep (aplicId : Nat) (intExt : Option (List (Nat × Nat)))
    (rs : List CM_RISCV_RINTC_INFO) : Except EFI_STATUS (List CM_RISCV_RINTC_INFO) :=
  match intExt with
  | some pairs => aplicPatchLoop aplicId 0 pairs rs
  | none => .ok rs

/-- AplicRintcInfoParser from RiscVRintcParser.c, over the S-mode riscv,aplic
nodes in device-tree iteration order.  Per node: the patch loop (when
interrupts-extended is present) back-patches the RINTC records and NumIdcs is
the pair count; then the CM_RISCV_APLIC_INFO record is built — NumSources from
riscv,num-sources truncated to its UINT16 field, GsiBase from the running
UINT32 AplicGsiBase accumulator which then advances by NumSources, AplicId
from the post-incremented instance counter — and added via AddSingleCmObj. -/
def aplicParse : List AplicDtNode → List CM_RISCV_RINTC_INFO → Nat → Nat →
    Except EFI_STATUS (List CM_RISCV_RINTC_INFO × List CM_RISCV_APLIC_INFO)
  | [], rs, _, _ => .ok (rs, [])
  | node :: rest, rs, aplicId, gsiBase =>
    match aplicPatchStep aplicId node.intExt rs with
    | .error e => .error e
    | .ok rs1 =>
      let numIdcs :=
        match node.intExt with
        | some pairs => pairs.length % U16
        | none => 0
      let numSources := fdt32 node.numSources % U16
      let rec0 : CM_RISCV_APLIC_INFO :=
        { Version := 1, AplicId := aplicId % U8, Flags := 0, NumIdcs := numIdcs,
          NumSources := numSources, GsiBase := gsiBase,
          AplicAddress := fdt64 node.regAddr, AplicSize := fdt64 node.regSize % U32,
          Phandle := fdt32 node.phandle }
      match aplicParse rest rs1 (aplicId + 1) ((gsiBase + numSources) % U32) with
      | .error e => .error e
      | .ok (rs2, recs) => .ok (rs2, rec0 :: recs)

/-- GSI-base assignment sequence shared by PlicRintcInfoParser (lines 727-730)
and AplicRintcInfoParser (lines 883-886): from a running UINT32 base, each
instance is assigned (base, n) and the base then advances by the instance's
NumSources value, modulo 2^32. -/
def gsiSeq (base : Nat) : List Nat → List (Nat × Nat)
  | [] => []
  | n :: rest => (base, n) :: gsiSeq ((base + n) % U32) rest

/-- All-zero APLIC record (ZeroMem). -/
def zeroAplic : CM_RISCV_APLIC_INFO :=
  { Version := 0, AplicId := 0, Flags := 0, NumIdcs := 0, NumSources := 0,
    GsiBase := 0, AplicAddress := 0, AplicSize := 0, Phandle := 0 }

/-- Record list of a PLIC parser result (the empty list on error). -/
def plicRecsOf (r : Except EFI_STATUS (List CM_RISCV_RINTC_INFO × List CM_RISCV_PLIC_INFO)) :
    List CM_RISCV_PLIC_INFO :=
  match r with
  | .ok pr => pr.2
  | .error _ => []

/-! ## SSDT CPU topology generator — RiscVSsdtCpuTopologyGenerator.c,
CreateTopologyFromApic and CreateAmlEtNode -/

/-- One AML CPU device node of the generated topology: the name index, the
_UID, and which nested sub-objects were appended to it. -/
structure AmlCpuNode where
  CpuName : Nat
  Uid : Nat
  hasCpc : Bool
  hasEt : Bool
  deriving DecidableEq

/-- All-absent AML CPU node, used as a getD default. -/
def zeroAmlCpu : AmlCpuNode :=
  { CpuName := 0, Uid := 0, hasCpc := false, hasEt := false }

/-- Modelled from the spec: CreateAmlCpu lives in the common
SsdtCpuTopologyGenerator.c, which is not part of this repository slice.  Per
the spec it synthesizes one AML device node per core, keyed by that core's
ACPI processor UID, and cannot fail on a well-formed record. -/
def CreateAmlCpu (index : Nat) (r : CM_RISCV_RINTC_INFO) : AmlCpuNode :=
  { CpuName := index, Uid := r.AcpiProcessorUid, hasCpc := false, hasEt := false }

/-- Modelled from the spec: CreateAmlCpcNode lives in the common
SsdtCpuTopologyGenerator.c, which is not part of this repository slice.  Per
the spec it dereferences the CpcToken and appends a _CPC sub-object to the CPU
node; a token that fails to dereference is EFI_NOT_FOUND.  `cpcStore` is the
set of tokens the configuration manager resolves. -/
def CreateAmlCpcNode (cpcStore : List Nat) (tok : Nat) (node : AmlCpuNode) :
    Except EFI_STATUS AmlCpuNode :=
  if tok ∈ cpcStore then .ok { node with hasCpc := true } else .error .notFound

/-- CreateAmlEtNode from RiscVSsdtCpuTopologyGenerator.c: unconditionally
EFI_UNSUPPORTED — embedded-trace node generation is not implemented for
RISC-V, regardless of the token. -/
def CreateAmlEtNode (_etToken : Nat) (_node : AmlCpuNode) : Except EFI_STATUS AmlCpuNode :=
  .error .unsupported

/-- CreateTopologyFromApic from RiscVSsdtCpuTopologyGenerator.c: for each
RINTC record in order, create the CPU device node; when CpcToken is not
CM_NULL_TOKEN (0), create the nested _CPC object (an error breaks out of the
loop and is returned); when EtToken is not CM_NULL_TOKEN, call CreateAmlEtNode
(an error returns immediately).  Either failure aborts generation with the
error propagated. -/
def CreateTopologyFromApic (cpcStore : List Nat) :
    List CM_RISCV_RINTC_INFO → Nat → Except EFI_STATUS (List AmlCpuNode)
  | [], _ => .ok []
  | r :: rest, index =>
    let cpu := CreateAmlCpu index r
    match (if r.CpcToken ≠ 0 then CreateAmlCpcNode cpcStore r.CpcToken cpu
           else .ok cpu) with
    | .error e => .error e
    | .ok cpu1 =>
      match (if r.EtToken ≠ 0 then CreateAmlEtNode r.EtToken cpu1 else .ok cpu1) with
      | .error e => .error e
      | .ok cpu2 =>
        match CreateTopologyFromApic cpcStore rest (index + 1) with
        | .error e => .error e
        | .ok nodes => .ok (cpu2 :: nodes)

/-! ## Theorems -/

/-! ## Theorems for claims C1, C4, C5, C6, C10 -/

/-- C1: evaluation of the CMO block-size encoding at the failing input.  The
claim (CbomBlockSize is the base-2 exponent of the property value, so 64 gives
6) only holds when the uninitialized `Ret` of RhctCmoGetBlockSize happens to
hold 0; with any other residual value (here 1) the emitted exponent is off by
that amount (64 gives 7).  In addition, when riscv,cbom-block-size is absent,
CreateCmoInfo returns before calling AddSingleCmObj, so no CMO record with
zero fields is emitted at all. -/
theorem C1_rhct_cmo_uninitialized_ret :
    RhctCmoGetBlockSize 0 64 = 6 ∧
    RhctCmoGetBlockSize 1 64 = 7 ∧
    (CreateCmoInfo 1 0 0 { cbom := some 64, cboz := none, cbop := none } false).2 =
      some { CbomBlockSize := 7, CbopBlockSize := 0, CbozBlockSize := 0 } ∧
    (CreateCmoInfo 0 0 0 { cbom := some 64, cboz := none, cbop := none } false).2 =
      some { CbomBlockSize := 6, CbopBlockSize := 0, CbozBlockSize := 0 } ∧
    CreateCmoInfo 0 0 0 { cbom := none, cboz := some 64, cbop := some 64 } false =
      (false, none) := by
  decide

/-- C5: with /cpus present, timebase-frequency = 10000000 and an S-mode
riscv,timer node that has no riscv,timer-cannot-wake-cpu property, the first
CreateTimerInfo invocation emits exactly the record
TimeBaseFrequency = 10000000, TimerCannotWakeCpu = 0 (for every residual value
of the uninitialized local, which this path never reads). -/
theorem C5_timer_scenario (garbage : Nat) :
    CreateTimerInfo garbage
      { cpusNodePresent := true, timebaseFreq := some 10000000, timerNode := some false }
      false =
    (true, some { TimerCannotWakeCpu := 0, TimeBaseFrequency := 10000000 }) := by
  rfl

/-- C4 counterexample: with the first checklist entry mandatory-and-absent and
the second entry carrying both presence bits, the classification returns
ALREADY_STARTED, not NOT_FOUND, because the later conflict overwrites the
accumulated status.  This falsifies the claim that any missing mandatory entry
makes the call return the NOT_FOUND status. -/
theorem C4_last_violation_counterexample :
    VerifyMandatoryTablesArePresent
      [{ IsMandatory := true, Presence := 0 },
       { IsMandatory := true, Presence := 3 },
       { IsMandatory := true, Presence := 1 },
       { IsMandatory := true, Presence := 1 },
       { IsMandatory := false, Presence := 1 }] = .alreadyStarted ∧
    EFI_STATUS.alreadyStarted ≠ EFI_STATUS.notFound := by
  decide

/-- Helper: the conflict mask compared against Presence is the two bits together. -/
theorem verify_conflict_mask :
    (ACPI_TABLE_PRESENT_INFO_LIST ||| ACPI_TABLE_PRESENT_INSTALLED) = 3 := by
  decide

/-- Helper: unfolding of the classification step with the mask evaluated. -/
theorem verifyClassifyStep_eq (st : EFI_STATUS) (e : ACPI_TABLE_PRESENCE_INFO) :
    verifyClassifyStep st e =
      if e.Presence = 0 then (if e.IsMandatory then .notFound else st)
      else if e.Presence = 3 then .alreadyStarted
      else st := by
  unfold verifyClassifyStep
  rw [verify_conflict_mask]

/-- Helper: an entry that is neither missing-mandatory nor a both-bits conflict
leaves the accumulated status unchanged. -/
theorem verifyClassifyStep_skip (st : EFI_STATUS) (e : ACPI_TABLE_PRESENCE_INFO)
    (h1 : ¬(e.IsMandatory = true ∧ e.Presence = 0)) (h2 : e.Presence ≠ 3) :
    verifyClassifyStep st e = st := by
  rw [verifyClassifyStep_eq]
  by_cases hp : e.Presence = 0
  · have hm : e.IsMandatory = false := by
      cases hm : e.IsMandatory
      · rfl
      · exact absurd ⟨hm, hp⟩ h1
    simp [hp, hm]
  · simp [hp, h2]

/-- Helper: a checklist with no violating entry never changes the status. -/
theorem verifyFold_skip (es : List ACPI_TABLE_PRESENCE_INFO) (st : EFI_STATUS)
    (h : ∀ e ∈ es, ¬(e.IsMandatory = true ∧ e.Presence = 0) ∧ e.Presence ≠ 3) :
    es.foldl verifyClassifyStep st = st := by
  induction es generalizing st with
  | nil => rfl
  | cons e es ih =>
    have he := h e (by simp)
    rw [List.foldl_cons, verifyClassifyStep_skip st e he.1 he.2]
    exact ih st (fun x hx => h x (by simp [hx]))

/-- Helper: NOT_FOUND is absorbing over a conflict-free suffix. -/
theorem verifyFold_notFound (es : List ACPI_TABLE_PRESENCE_INFO)
    (h : ∀ e ∈ es, e.Presence ≠ 3) :
    es.foldl verifyClassifyStep .notFound = .notFound := by
  induction es with
  | nil => rfl
  | cons e es ih =>
    have he := h e (by simp)
    have hstep : verifyClassifyStep .notFound e = .notFound := by
      rw [verifyClassifyStep_eq]
      by_cases hp : e.Presence = 0
      · cases e.IsMandatory <;> simp [hp]
      · simp [hp, he]
    rw [List.foldl_cons, hstep]
    exact ih (fun x hx => h x (by simp [hx]))

/-- Helper: ALREADY_STARTED is absorbing over a suffix with no missing
mandatory entry. -/
theorem verifyFold_already (es : List ACPI_TABLE_PRESENCE_INFO)
    (h : ∀ e ∈ es, ¬(e.IsMandatory = true ∧ e.Presence = 0)) :
    es.foldl verifyClassifyStep .alreadyStarted = .alreadyStarted := by
  induction es with
  | nil => rfl
  | cons e es ih =>
    have hstep : verifyClassifyStep .alreadyStarted e = .alreadyStarted := by
      rw [verifyClassifyStep_eq]
      by_cases hp : e.Presence = 0
      · have hm : e.IsMandatory = false := by
          cases hm : e.IsMandatory
          · rfl
          · exact absurd ⟨hm, hp⟩ (h e (by simp))
        simp [hp, hm]
      · by_cases hp3 : e.Presence = 3 <;> simp [hp, hp3]
    rw [List.foldl_cons, hstep]
    exact ih (fun x hx => h x (by simp [hx]))

/-- Helper: the classification step never produces SUCCESS from a non-SUCCESS
status. -/
theorem verifyClassifyStep_ne_success (st : EFI_STATUS) (e : ACPI_TABLE_PRESENCE_INFO)
    (h : st ≠ .success) : verifyClassifyStep st e ≠ .success := by
  rw [verifyClassifyStep_eq]
  split_ifs <;> first | exact h | decide

/-- Helper: once the status has left SUCCESS it never returns to it. -/
theorem verifyFold_ne_success (es : List ACPI_TABLE_PRESENCE_INFO) (st : EFI_STATUS)
    (h : st ≠ .success) : es.foldl verifyClassifyStep st ≠ .success := by
  induction es generalizing st with
  | nil => exact h
  | cons e es ih =>
    rw [List.foldl_cons]
    exact ih _ (verifyClassifyStep_ne_success st e h)

/-- Helper: a missing mandatory entry drives the result to NOT_FOUND provided
no entry of the checklist carries both presence bits. -/
theorem verify_missing_mandatory (es : List ACPI_TABLE_PRESENCE_INFO)
    (hex : ∃ e ∈ es, e.IsMandatory = true ∧ e.Presence = 0)
    (hno3 : ∀ e ∈ es, e.Presence ≠ 3) :
    VerifyMandatoryTablesArePresent es = .notFound := by
  unfold VerifyMandatoryTablesArePresent
  induction es with
  | nil => simp at hex
  | cons e es ih =>
    rw [List.foldl_cons]
    by_cases hmm : e.IsMandatory = true ∧ e.Presence = 0
    · have hstep : verifyClassifyStep .success e = .notFound := by
        rw [verifyClassifyStep_eq]
        simp [hmm.1, hmm.2]
      rw [hstep]
      exact verifyFold_notFound es (fun x hx => hno3 x (by simp [hx]))
    · rw [verifyClassifyStep_skip .success e hmm (hno3 e (by simp))]
      apply ih
      · obtain ⟨x, hx, hxp⟩ := hex
        rcases List.mem_cons.mp hx with h | h
        · exact absurd (h ▸ hxp) hmm
        · exact ⟨x, h, hxp⟩
      · exact fun x hx => hno3 x (by simp [hx])

/-- Helper: a both-bits conflict drives the result to ALREADY_STARTED provided
no mandatory entry of the checklist is missing. -/
theorem verify_conflict (es : List ACPI_TABLE_PRESENCE_INFO)
    (hex : ∃ e ∈ es, e.Presence = 3)
    (hnomm : ∀ e ∈ es, ¬(e.IsMandatory = true ∧ e.Presence = 0)) :
    VerifyMandatoryTablesArePresent es = .alreadyStarted := by
  unfold VerifyMandatoryTablesArePresent
  induction es with
  | nil => simp at hex
  | cons e es ih =>
    rw [List.foldl_cons]
    by_cases h3 : e.Presence = 3
    · have hstep : verifyClassifyStep .success e = .alreadyStarted := by
        rw [verifyClassifyStep_eq]
        simp [h3]
      rw [hstep]
      exact verifyFold_already es (fun x hx => hnomm x (by simp [hx]))
    · rw [verifyClassifyStep_skip .success e (hnomm e (by simp)) h3]
      apply ih
      · obtain ⟨x, hx, hxp⟩ := hex
        rcases List.mem_cons.mp hx with h | h
        · exact absurd (h ▸ hxp) h3
        · exact ⟨x, h, hxp⟩
      · exact fun x hx => hnomm x (by simp [hx])

/-- C4 (amended): the classification loop accumulates without short-circuiting
and the returned status is that of the last violating entry.  Consequently:
a missing mandatory entry yields NOT_FOUND provided no entry carries both
presence bits; a both-bits conflict yields ALREADY_STARTED provided no
mandatory entry is missing; a checklist with no violation yields SUCCESS (a
missing optional entry only warns); deleting a missing optional entry does not
change the result; and whenever any violation exists the call never returns
SUCCESS. -/
theorem C4_verify_amended :
    (∀ es : List ACPI_TABLE_PRESENCE_INFO,
      (∃ e ∈ es, e.IsMandatory = true ∧ e.Presence = 0) →
      (∀ e ∈ es, e.Presence ≠ 3) →
      VerifyMandatoryTablesArePresent es = .notFound) ∧
    (∀ es : List ACPI_TABLE_PRESENCE_INFO,
      (∃ e ∈ es, e.Presence = 3) →
      (∀ e ∈ es, ¬(e.IsMandatory = true ∧ e.Presence = 0)) →
      VerifyMandatoryTablesArePresent es = .alreadyStarted) ∧
    (∀ es : List ACPI_TABLE_PRESENCE_INFO,
      (∀ e ∈ es, ¬(e.IsMandatory = true ∧ e.Presence = 0) ∧ e.Presence ≠ 3) →
      VerifyMandatoryTablesArePresent es = .success) ∧
    (∀ (es1 es2 : List ACPI_TABLE_PRESENCE_INFO) (e : ACPI_TABLE_PRESENCE_INFO),
      e.IsMandatory = false → e.Presence = 0 →
      VerifyMandatoryTablesArePresent (es1 ++ e :: es2) =
        VerifyMandatoryTablesArePresent (es1 ++ es2)) ∧
    (∀ es : List ACPI_TABLE_PRESENCE_INFO,
      ((∃ e ∈ es, e.IsMandatory = true ∧ e.Presence = 0) ∨ (∃ e ∈ es, e.Presence = 3)) →
      VerifyMandatoryTablesArePresent es ≠ .success) := by
  refine ⟨verify_missing_mandatory, verify_conflict, ?_, ?_, ?_⟩
  · intro es h
    exact verifyFold_skip es .success h
  · intro es1 es2 e hm hp
    unfold VerifyMandatoryTablesArePresent
    rw [List.foldl_append, List.foldl_append, List.foldl_cons]
    have hstep : ∀ st, verifyClassifyStep st e = st := by
      intro st
      apply verifyClassifyStep_skip
      · intro hc
        rw [hm] at hc
        exact absurd hc.1 (by decide)
      · rw [hp]
        decide
    rw [hstep]
  · intro es hviol
    unfold VerifyMandatoryTablesArePresent
    have hex : ∃ e ∈ es, (e.IsMandatory = true ∧ e.Presence = 0) ∨ e.Presence = 3 := by
      rcases hviol with ⟨x, hx, hp⟩ | ⟨x, hx, hp⟩
      · exact ⟨x, hx, Or.inl hp⟩
      · exact ⟨x, hx, Or.inr hp⟩
    clear hviol
    induction es with
    | nil => simp at hex
    | cons e es ih =>
      rw [List.foldl_cons]
      by_cases hv : (e.IsMandatory = true ∧ e.Presence = 0) ∨ e.Presence = 3
      · apply verifyFold_ne_success
        rw [verifyClassifyStep_eq]
        rcases hv with ⟨hm, hp⟩ | hp
        · simp [hm, hp]
        · have hp0 : e.Presence ≠ 0 := by rw [hp]; decide
          simp [hp, hp0]
      · have hv1 : ¬(e.IsMandatory = true ∧ e.Presence = 0) := fun hc => hv (Or.inl hc)
        have hv2 : e.Presence ≠ 3 := fun hc => hv (Or.inr hc)
        rw [verifyClassifyStep_skip .success e hv1 hv2]
        apply ih
        obtain ⟨x, hx, hxp⟩ := hex
        rcases List.mem_cons.mp hx with h | h
        · rcases hxp with hc | hc
          · exact absurd (h ▸ hc) hv1
          · exact absurd (h ▸ hc) hv2
        · exact ⟨x, h, hxp⟩

/-- C4 witness: the amended theorem applied to concrete checklists exercising
the NOT_FOUND, ALREADY_STARTED and SUCCESS branches. -/
theorem C4_verify_amended_witness :
    VerifyMandatoryTablesArePresent
      [{ IsMandatory := true, Presence := 0 }, { IsMandatory := false, Presence := 0 },
       { IsMandatory := true, Presence := 1 }] = .notFound ∧
    VerifyMandatoryTablesArePresent
      [{ IsMandatory := true, Presence := 1 }, { IsMandatory := false, Presence := 0 },
       { IsMandatory := true, Presence := 3 }] = .alreadyStarted ∧
    VerifyMandatoryTablesArePresent
      [{ IsMandatory := true, Presence := 1 }, { IsMandatory := false, Presence := 0 }] =
      .success := by
  refine ⟨?_, ?_, ?_⟩
  · exact C4_verify_amended.1 _
      ⟨{ IsMandatory := true, Presence := 0 }, by decide, by decide⟩ (by decide)
  · exact C4_verify_amended.2.1 _
      ⟨{ IsMandatory := true, Presence := 3 }, by decide, by decide⟩ (by decide)
  · exact C4_verify_amended.2.2.1 _ (by decide)

/-- C6 counterexample: with no APLIC and no PLIC records, ArchGetGsiIrqId
returns the unmapped IrqId through the final fall-through return, with no
ASSERT on the path — the claimed hard failure does not happen.  Moreover with
a non-empty APLIC set, a phandle that only matches a PLIC record is not found:
the PLIC set is never searched, so the claimed result IrqId + GsiBase (here
105) is not produced either. -/
theorem C6_no_failure_counterexample :
    ArchGetGsiIrqId [] [] 5 7 = .ok 5 ∧
    ArchGetGsiIrqId [{ Phandle := 1, GsiBase := 0 }] [{ Phandle := 7, GsiBase := 100 }] 5 7 =
      .assertFail 5 ∧
    ARCH_GSI_RESULT.assertFail 5 ≠ .ok ((5 + 100) % U32) := by
  decide

/-- C6 (amended): ArchGetGsiIrqId searches the APLIC record set whenever it is
non-empty and otherwise the PLIC record set; a match returns
IrqId + GsiBase of the first matching record of the consulted set; a miss in a
non-empty consulted set is an ASSERT hard failure (returning the raw IrqId in
release builds); and with both sets empty the function returns the raw IrqId
without any failure. -/
theorem C6_gsi_lookup_amended :
    (∀ (aplics plics : List IC_GSI_RECORD) (irqId ph : Nat) (a : IC_GSI_RECORD),
      aplics.find? (fun r => r.Phandle = ph) = some a →
      ArchGetGsiIrqId aplics plics irqId ph = .ok ((irqId + a.GsiBase) % U32)) ∧
    (∀ (plics : List IC_GSI_RECORD) (irqId ph : Nat) (p : IC_GSI_RECORD),
      plics.find? (fun r => r.Phandle = ph) = some p →
      ArchGetGsiIrqId [] plics irqId ph = .ok ((irqId + p.GsiBase) % U32)) ∧
    (∀ (aplics plics : List IC_GSI_RECORD) (irqId ph : Nat), aplics ≠ [] →
      aplics.find? (fun r => r.Phandle = ph) = none →
      ArchGetGsiIrqId aplics plics irqId ph = .assertFail (irqId % U32)) ∧
    (∀ (plics : List IC_GSI_RECORD) (irqId ph : Nat), plics ≠ [] →
      plics.find? (fun r => r.Phandle = ph) = none →
      ArchGetGsiIrqId [] plics irqId ph = .assertFail (irqId % U32)) ∧
    (∀ irqId ph : Nat, ArchGetGsiIrqId [] [] irqId ph = .ok (irqId % U32)) := by
  refine ⟨?_, ?_, ?_, ?_, ?_⟩
  · intro aplics plics irqId ph a hfind
    have hne : aplics ≠ [] := by
      intro h
      rw [h] at hfind
      simp at hfind
    unfold ArchGetGsiIrqId
    simp [hne, hfind]
  · intro plics irqId ph p hfind
    unfold ArchGetGsiIrqId
    have hne : plics ≠ [] := by
      intro h
      rw [h] at hfind
      simp at hfind
    simp [hne, hfind]
  · intro aplics plics irqId ph hne hfind
    unfold ArchGetGsiIrqId
    simp [hne, hfind]
  · intro plics irqId ph hne hfind
    unfold ArchGetGsiIrqId
    simp [hne, hfind]
  · intro irqId ph
    rfl

/-- C6 witness: the amended theorem applied to a concrete APLIC record set, a
concrete PLIC-only configuration, and concrete misses. -/
theorem C6_gsi_lookup_amended_witness :
    ArchGetGsiIrqId [{ Phandle := 7, GsiBase := 32 }] [] 5 7 = .ok 37 ∧
    ArchGetGsiIrqId [] [{ Phandle := 7, GsiBase := 32 }] 5 7 = .ok 37 ∧
    ArchGetGsiIrqId [{ Phandle := 1, GsiBase := 0 }] [] 5 7 = .assertFail 5 := by
  have h37 : (5 + 32) % U32 = 37 := by decide
  have h5 : (5 : Nat) % U32 = 5 := by decide
  refine ⟨?_, ?_, ?_⟩
  · have h := C6_gsi_lookup_amended.1 [{ Phandle := 7, GsiBase := 32 }] [] 5 7
      { Phandle := 7, GsiBase := 32 } (by rfl)
    rw [h37] at h
    exact h
  · have h := C6_gsi_lookup_amended.2.1 [{ Phandle := 7, GsiBase := 32 }] 5 7
      { Phandle := 7, GsiBase := 32 } (by rfl)
    rw [h37] at h
    exact h
  · have h := C6_gsi_lookup_amended.2.2.1 [{ Phandle := 1, GsiBase := 0 }] [] 5 7
      (by decide) (by rfl)
    rw [h5] at h
    exact h

/-- Helper: the only object ids whose TokenFixer entry writes the token are
18, 19, 20 and 22. -/
theorem TokenFixer_writes_iff (i : Nat) :
    TokenFixer i = some .writesToken ↔ (i = 18 ∨ i = 19 ∨ i = 20 ∨ i = 22) := by
  constructor
  · intro h
    by_cases h1 : i = 18 ∨ i = 19 ∨ i = 20 ∨ i = 22
    · exact h1
    · exfalso
      unfold TokenFixer at h
      rw [if_neg h1] at h
      by_cases h2 : i = 21 ∨ i = 23 ∨ i = 27 ∨ i = 28 ∨ i = 29
      · rw [if_pos h2] at h
        exact absurd (Option.some.inj h) (by decide)
      · rw [if_neg h2] at h
        exact Option.noConfusion h
  · intro h
    unfold TokenFixer
    rw [if_pos h]

/-- C10: FixupCmObjectSelfToken rejects every non-Arm-namespace descriptor with
EFI_UNSUPPORTED and leaves it unchanged (in particular every RISC-V-namespace
descriptor); rejects an Arm object id at or beyond EArmObjMax with
EFI_INVALID_PARAMETER; succeeds without touching the object when the fixer
table entry is NULL; and only the four object types with a token-writing fixer
entry (18 ItsGroup, 19 NamedComponent, 20 RootComplex, 22 SmmuV3) can ever
have the object modified. -/
theorem C10_token_fixer :
    (∀ (d : CM_OBJ_DESCRIPTOR) (tok : Nat), d.nsId ≠ EObjNameSpaceArm →
      FixupCmObjectSelfToken d tok = (.unsupported, d)) ∧
    (∀ (d : CM_OBJ_DESCRIPTOR) (tok : Nat), d.nsId = EObjNameSpaceRiscV →
      FixupCmObjectSelfToken d tok = (.unsupported, d)) ∧
    (∀ (d : CM_OBJ_DESCRIPTOR) (tok : Nat), d.nsId = EObjNameSpaceArm →
      EArmObjMax ≤ d.objId →
      FixupCmObjectSelfToken d tok = (.invalidParameter, d)) ∧
    (∀ (d : CM_OBJ_DESCRIPTOR) (tok : Nat), d.nsId = EObjNameSpaceArm →
      d.objId < EArmObjMax → TokenFixer d.objId = none →
      FixupCmObjectSelfToken d tok = (.success, d)) ∧
    (∀ (d : CM_OBJ_DESCRIPTOR) (tok : Nat), (FixupCmObjectSelfToken d tok).2 ≠ d →
      (d.objId = 18 ∨ d.objId = 19 ∨ d.objId = 20 ∨ d.objId = 22) ∧
      TokenFixer d.objId = some .writesToken) := by
  refine ⟨?_, ?_, ?_, ?_, ?_⟩
  · intro d tok h
    unfold FixupCmObjectSelfToken
    simp [h]
  · intro d tok h
    unfold FixupCmObjectSelfToken
    have : d.nsId ≠ EObjNameSpaceArm := by
      rw [h]
      decide
    simp [this]
  · intro d tok hns hge
    unfold FixupCmObjectSelfToken
    rw [if_neg (by simp [hns]), if_pos hge]
  · intro d tok hns hlt hnone
    unfold FixupCmObjectSelfToken
    rw [if_neg (by simp [hns]), if_neg (Nat.not_le.mpr hlt), hnone]
  · intro d tok h
    unfold FixupCmObjectSelfToken at h
    by_cases hns : d.nsId ≠ EObjNameSpaceArm
    · simp [hns] at h
    · by_cases hge : EArmObjMax ≤ d.objId
      · simp [hns, hge] at h
      · rcases hfix : TokenFixer d.objId with _ | k
        · simp [hns, hge, hfix] at h
        · cases k with
          | writesToken => exact ⟨(TokenFixer_writes_iff d.objId).mp hfix, rfl⟩
          | notImplemented => simp [hns, hge, hfix] at h

/-- C10 witness: the theorem applied to concrete descriptors: a RISC-V
namespace object, an out-of-range Arm object id, an Arm object with a NULL
fixer entry, and an object whose payload was changed. -/
theorem C10_token_fixer_witness :
    FixupCmObjectSelfToken { nsId := 3, objId := 5, token := 0, rest := 9 } 42 =
      (.unsupported, { nsId := 3, objId := 5, token := 0, rest := 9 }) ∧
    FixupCmObjectSelfToken { nsId := 1, objId := 40, token := 0, rest := 9 } 42 =
      (.invalidParameter, { nsId := 1, objId := 40, token := 0, rest := 9 }) ∧
    FixupCmObjectSelfToken { nsId := 1, objId := 2, token := 0, rest := 9 } 42 =
      (.success, { nsId := 1, objId := 2, token := 0, rest := 9 }) ∧
    (((18 : Nat) = 18 ∨ (18 : Nat) = 19 ∨ (18 : Nat) = 20 ∨ (18 : Nat) = 22) ∧
      TokenFixer 18 = some .writesToken) := by
  refine ⟨?_, ?_, ?_, ?_⟩
  · exact C10_token_fixer.2.1 { nsId := 3, objId := 5, token := 0, rest := 9 } 42 rfl
  · exact C10_token_fixer.2.2.1 { nsId := 1, objId := 40, token := 0, rest := 9 } 42 rfl
      (by decide)
  · exact C10_token_fixer.2.2.2.1 { nsId := 1, objId := 2, token := 0, rest := 9 } 42 rfl
      (by decide) (by decide)
  · exact C10_token_fixer.2.2.2.2 { nsId := 1, objId := 18, token := 0, rest := 9 } 42
      (by decide)

/-- Helper: prepending a value to a shifted range-map is a range-map over the
extended range. -/
theorem range_shift_map (uid k : Nat) :
    uid :: (List.range k).map (fun x => uid + 1 + x) =
      (List.range (k + 1)).map (fun x => uid + x) := by
  rw [List.range_succ_eq_map]
  simp only [List.map_cons, List.map_map, Nat.add_zero]
  congr 1
  apply List.map_congr_left
  intro i _
  simp only [Function.comp_apply]
  omega

/-- Helper: on a list of well-formed cpu nodes whose count keeps the UINT32
ProcUid counter from wrapping, the loop succeeds and assigns consecutive
AcpiProcessorUid values starting at the incoming counter value. -/
theorem cpusLoop_uids (g : TimerGlobals) (ac : Nat) (nodes : List CpuDtNode) :
    ∀ (uid : Nat) (s : SingletonState),
    (∀ n ∈ nodes, cpuNodeWf n) →
    uid + nodes.length ≤ U32 →
    ∃ rs s2, cpusLoop g ac nodes uid s = (.ok rs, s2) ∧
      rs.map (fun r => r.AcpiProcessorUid) = (List.range nodes.length).map (uid + ·) := by
  induction nodes with
  | nil =>
    intro uid s _ _
    exact ⟨[], s, rfl, by simp⟩
  | cons n rest ih =>
    intro uid s hwf hb
    have hn := hwf n (by simp)
    have hreg : ¬(n.regLen ≠ 4 ∧ n.regLen ≠ 8) := by
      rcases hn.2 with h | h <;> simp [h]
    have huid : uid % U32 = uid := Nat.mod_eq_of_lt (by simp at hb; omega)
    have hcpu : ∃ r s1, CpuNodeParser g ac n uid s = (.ok r, s1) ∧
        r.AcpiProcessorUid = uid := by
      unfold CpuNodeParser
      rw [if_neg hreg]
      exact ⟨_, _, rfl, huid⟩
    obtain ⟨r, s1, hr, hruid⟩ := hcpu
    have htail : ∃ rs s2, cpusLoop g ac rest ((uid + 1) % U32) s1 = (.ok rs, s2) ∧
        rs.map (fun x => x.AcpiProcessorUid) =
          (List.range rest.length).map ((uid + 1) % U32 + ·) := by
      apply ih
      · exact fun x hx => hwf x (by simp [hx])
      · have : (uid + 1) % U32 ≤ uid + 1 := Nat.mod_le _ _
        simp at hb
        omega
    obtain ⟨rs, s2, hrs, hmap⟩ := htail
    refine ⟨r :: rs, s2, ?_, ?_⟩
    · simp only [cpusLoop]
      rw [if_neg (by simp [hn.1])]
      simp only [hr, hrs]
    · simp only [List.map_cons, hruid]
      rw [hmap]
      have hfun : List.map (fun x => (uid + 1) % U32 + x) (List.range rest.length) =
          List.map (fun x => uid + 1 + x) (List.range rest.length) := by
        apply List.map_congr_left
        intro i hi
        have hlen : 1 ≤ rest.length := by
          have := List.mem_range.mp hi
          omega
        have hm : (uid + 1) % U32 = uid + 1 := by
          apply Nat.mod_eq_of_lt
          simp only [List.length_cons] at hb
          omega
        rw [hm]
      rw [hfun]
      simp only [List.length_cons]
      exact range_shift_map uid rest.length

/-- C3: on every device-tree input with N >= 1 well-formed "cpu" children
under one "cpus" node (and N within the UINT32 range of the ProcUid counter),
the parser emits exactly N per-core RINTC records whose AcpiProcessorUid
values are exactly 0, 1, ..., N-1 in node-enumeration order: distinct and
strictly increasing, starting at 0 (first parsing run, ProcUid statically
zero-initialized). -/
theorem C3_cpus_parser_uids (g : TimerGlobals) (ac : Nat) (nodes : List CpuDtNode)
    (h1 : 1 ≤ nodes.length) (h2 : nodes.length ≤ U32)
    (hwf : ∀ n ∈ nodes, cpuNodeWf n) :
    ∃ rs s2, CpusNodeParser g ac nodes 0 initSingletonState = (.ok rs, s2) ∧
      rs.length = nodes.length ∧
      rs.map (fun r => r.AcpiProcessorUid) = List.range nodes.length ∧
      (rs.map (fun r => r.AcpiProcessorUid)).Pairwise (· < ·) ∧
      (rs.map (fun r => r.AcpiProcessorUid)).Nodup := by
  obtain ⟨rs, s2, hloop, hmap⟩ :=
    cpusLoop_uids g ac nodes 0 initSingletonState hwf (by omega)
  have hmap0 : rs.map (fun r => r.AcpiProcessorUid) = List.range nodes.length := by
    rw [hmap]
    simp
  refine ⟨rs, s2, ?_, ?_, hmap0, ?_, ?_⟩
  · unfold CpusNodeParser
    rw [if_neg (by omega), hloop]
  · have := congrArg List.length hmap0
    simpa using this
  · rw [hmap0]
    exact List.pairwise_lt_range _
  · rw [hmap0]
    exact List.nodup_range _

/-- C3 witness: the theorem applied to a concrete two-cpu device tree. -/
theorem C3_cpus_parser_uids_witness :
    exceptIsOk (CpusNodeParser demoTimerGlobals 1 demoCpuNodes 0 initSingletonState).1 =
      true ∧
    (rintcListOf (CpusNodeParser demoTimerGlobals 1 demoCpuNodes 0
      initSingletonState).1).map (fun r => r.AcpiProcessorUid) = List.range 2 ∧
    ((rintcListOf (CpusNodeParser demoTimerGlobals 1 demoCpuNodes 0
      initSingletonState).1).map (fun r => r.AcpiProcessorUid)).Pairwise (· < ·) ∧
    ((rintcListOf (CpusNodeParser demoTimerGlobals 1 demoCpuNodes 0
      initSingletonState).1).map (fun r => r.AcpiProcessorUid)).Nodup := by
  obtain ⟨rs, s2, hok, hlen, hmap, hpw, hnd⟩ :=
    C3_cpus_parser_uids demoTimerGlobals 1 demoCpuNodes
      (by decide) (by norm_num [demoCpuNodes, U32]) (by decide)
  rw [hok]
  exact ⟨rfl, hmap, hpw, hnd⟩

/-- Helper: CreateCmoInfo either performs no emission and leaves the latch as
it was, or emits exactly one object from a clear latch and sets it. -/
theorem CreateCmoInfo_cases (g1 g2 g3 : Nat) (p : CmoProps) (b : Bool) :
    CreateCmoInfo g1 g2 g3 p b = (b, none) ∨
      (b = false ∧ ∃ x, CreateCmoInfo g1 g2 g3 p b = (true, some x)) := by
  cases b
  · cases hc : p.cbom with
    | none =>
      left
      simp [CreateCmoInfo, hc]
    | some v =>
      right
      refine ⟨rfl, ?_⟩
      unfold CreateCmoInfo
      rw [hc]
      exact ⟨_, rfl⟩
  · left
    simp [CreateCmoInfo]

/-- Helper: CreateIsaStringInfo either performs no emission and leaves the
latch as it was, or emits exactly one object from a clear latch and sets it. -/
theorem CreateIsaStringInfo_cases (isaProp : Option Nat) (b : Bool) :
    CreateIsaStringInfo isaProp b = (b, none) ∨
      (b = false ∧ ∃ x, CreateIsaStringInfo isaProp b = (true, some x)) := by
  cases b
  · cases hc : isaProp with
    | none =>
      left
      simp [CreateIsaStringInfo, hc]
    | some v =>
      right
      refine ⟨rfl, ?_⟩
      unfold CreateIsaStringInfo
      exact ⟨_, rfl⟩
  · left
    simp [CreateIsaStringInfo]

/-- Helper: CreateTimerInfo either performs no emission and leaves the latch as
it was, or emits exactly one object from a clear latch and sets it. -/
theorem CreateTimerInfo_cases (garbage : Nat) (g : TimerGlobals) (b : Bool) :
    CreateTimerInfo garbage g b = (b, none) ∨
      (b = false ∧ ∃ x, CreateTimerInfo garbage g b = (true, some x)) := by
  cases hcp : g.cpusNodePresent
  · left
    simp [CreateTimerInfo, hcp]
  · cases b
    · cases hf : g.timebaseFreq with
      | none =>
        left
        simp [CreateTimerInfo, hcp, hf]
      | some f =>
        right
        refine ⟨rfl, ?_⟩
        unfold CreateTimerInfo
        rw [hcp, hf]
        exact ⟨_, rfl⟩
    · left
      simp [CreateTimerInfo, hcp]

/-- Helper: one CpuNodeParser invocation preserves the latch invariant even
though it invokes all three singleton creators. -/
theorem CpuNodeParser_inv (g : TimerGlobals) (ac : Nat) (node : CpuDtNode) (uid : Nat)
    (s : SingletonState) (h : latchInv s) :
    latchInv (CpuNodeParser g ac node uid s).2 := by
  obtain ⟨h1, h2, h3, h4, h5, h6⟩ := h
  unfold CpuNodeParser
  by_cases hreg : node.regLen ≠ 4 ∧ node.regLen ≠ 8
  · rw [if_pos hreg]
    exact ⟨h1, h2, h3, h4, h5, h6⟩
  · rw [if_neg hreg]
    refine ⟨?_, ?_, ?_, ?_, ?_, ?_⟩
    · rcases CreateCmoInfo_cases node.gCmo1 node.gCmo2 node.gCmo3 node.cmo s.foundCmo with
        hc | ⟨hb, x, hc⟩
      · simp only [hc]
        intro hf
        simp [h1 hf]
      · simp only [hc]
        intro hf
        simp at hf
    · rcases CreateCmoInfo_cases node.gCmo1 node.gCmo2 node.gCmo3 node.cmo s.foundCmo with
        hc | ⟨hb, x, hc⟩
      · simp only [hc]
        simpa using h2
      · simp only [hc]
        simp [h1 hb]
    · rcases CreateIsaStringInfo_cases node.isa s.foundIsa with hc | ⟨hb, x, hc⟩
      · simp only [hc]
        intro hf
        simp [h3 hf]
      · simp only [hc]
        intro hf
        simp at hf
    · rcases CreateIsaStringInfo_cases node.isa s.foundIsa with hc | ⟨hb, x, hc⟩
      · simp only [hc]
        simpa using h4
      · simp only [hc]
        simp [h3 hb]
    · rcases CreateTimerInfo_cases node.gTimer g s.foundTimer with hc | ⟨hb, x, hc⟩
      · simp only [hc]
        intro hf
        simp [h5 hf]
      · simp only [hc]
        intro hf
        simp at hf
    · rcases CreateTimerInfo_cases node.gTimer g s.foundTimer with hc | ⟨hb, x, hc⟩
      · simp only [hc]
        simpa using h6
      · simp only [hc]
        simp [h5 hb]

/-- Helper: the whole cpu-node loop preserves the latch invariant on every
path, including error paths. -/
theorem cpusLoop_inv (g : TimerGlobals) (ac : Nat) (nodes : List CpuDtNode) :
    ∀ (uid : Nat) (s : SingletonState), latchInv s →
    latchInv (cpusLoop g ac nodes uid s).2 := by
  induction nodes with
  | nil =>
    intro uid s h
    exact h
  | cons n rest ih =>
    intro uid s h
    simp only [cpusLoop]
    by_cases hcomp : n.compatible = false
    · rw [if_pos hcomp]
      exact h
    · rw [if_neg hcomp]
      have hinv := CpuNodeParser_inv g ac n uid s h
      rcases hp : CpuNodeParser g ac n uid s with ⟨res, s1⟩
      rw [hp] at hinv
      cases res with
      | error e =>
        simp only [hp]
        exact hinv
      | ok r =>
        simp only [hp]
        have htail := ih ((uid + 1) % U32) s1 hinv
        rcases hq : cpusLoop g ac rest ((uid + 1) % U32) s1 with ⟨res2, s2⟩
        rw [hq] at htail
        simp only [hq]
        cases res2 with
        | error e => exact htail
        | ok rs => exact htail

/-- C9: during one parsing run (static latches zero-initialized) over any list
of N >= 1 cpu nodes, at most one CMO CmObj, at most one ISA-string CmObj and
at most one Timer CmObj are emitted in total, even though CreateCmoInfo,
CreateIsaStringInfo and CreateTimerInfo run once per cpu node — on every
execution path, including aborted ones. -/
theorem C9_singleton_latches (g : TimerGlobals) (ac : Nat) (nodes : List CpuDtNode)
    (h1 : 1 ≤ nodes.length) :
    (CpusNodeParser g ac nodes 0 initSingletonState).2.cmoObjs.length ≤ 1 ∧
    (CpusNodeParser g ac nodes 0 initSingletonState).2.isaObjs.length ≤ 1 ∧
    (CpusNodeParser g ac nodes 0 initSingletonState).2.timerObjs.length ≤ 1 := by
  unfold CpusNodeParser
  rw [if_neg (by omega)]
  have h := cpusLoop_inv g ac nodes 0 initSingletonState
    ⟨fun _ => rfl, by simp [initSingletonState], fun _ => rfl, by simp [initSingletonState],
     fun _ => rfl, by simp [initSingletonState]⟩
  exact ⟨h.2.1, h.2.2.2.1, h.2.2.2.2.2⟩

/-- C9 witness: three identical cpu nodes all carrying riscv,isa and
riscv,cbom-block-size, parsed with the timer globals present: at most one
object of each singleton kind is emitted. -/
theorem C9_singleton_latches_witness :
    (CpusNodeParser { cpusNodePresent := true, timebaseFreq := some 10000000,
                      timerNode := some false } 1
      [{ compatible := true, regLen := 4, regVal := 0, intcPhandle := some 1,
         cmo := { cbom := some 64, cboz := some 64, cbop := none }, isa := some 5,
         gCmo1 := 0, gCmo2 := 0, gCmo3 := 0, gTimer := 0 },
       { compatible := true, regLen := 4, regVal := 1, intcPhandle := some 2,
         cmo := { cbom := some 64, cboz := some 64, cbop := none }, isa := some 5,
         gCmo1 := 0, gCmo2 := 0, gCmo3 := 0, gTimer := 0 },
       { compatible := true, regLen := 4, regVal := 2, intcPhandle := some 3,
         cmo := { cbom := some 64, cboz := some 64, cbop := none }, isa := some 5,
         gCmo1 := 0, gCmo2 := 0, gCmo3 := 0, gTimer := 0 }] 0
      initSingletonState).2.cmoObjs.length ≤ 1 ∧
    (CpusNodeParser { cpusNodePresent := true, timebaseFreq := some 10000000,
                      timerNode := some false } 1
      [{ compatible := true, regLen := 4, regVal := 0, intcPhandle := some 1,
         cmo := { cbom := some 64, cboz := some 64, cbop := none }, isa := some 5,
         gCmo1 := 0, gCmo2 := 0, gCmo3 := 0, gTimer := 0 },
       { compatible := true, regLen := 4, regVal := 1, intcPhandle := some 2,
         cmo := { cbom := some 64, cboz := some 64, cbop := none }, isa := some 5,
         gCmo1 := 0, gCmo2 := 0, gCmo3 := 0, gTimer := 0 },
       { compatible := true, regLen := 4, regVal := 2, intcPhandle := some 3,
         cmo := { cbom := some 64, cboz := some 64, cbop := none }, isa := some 5,
         gCmo1 := 0, gCmo2 := 0, gCmo3 := 0, gTimer := 0 }] 0
      initSingletonState).2.isaObjs.length ≤ 1 ∧
    (CpusNodeParser { cpusNodePresent := true, timebaseFreq := some 10000000,
                      timerNode := some false } 1
      [{ compatible := true, regLen := 4, regVal := 0, intcPhandle := some 1,
         cmo := { cbom := some 64, cboz := some 64, cbop := none }, isa := some 5,
         gCmo1 := 0, gCmo2 := 0, gCmo3 := 0, gTimer := 0 },
       { compatible := true, regLen := 4, regVal := 1, intcPhandle := some 2,
         cmo := { cbom := some 64, cboz := some 64, cbop := none }, isa := some 5,
         gCmo1 := 0, gCmo2 := 0, gCmo3 := 0, gTimer := 0 },
       { compatible := true, regLen := 4, regVal := 2, intcPhandle := some 3,
         cmo := { cbom := some 64, cboz := some 64, cbop := none }, isa := some 5,
         gCmo1 := 0, gCmo2 := 0, gCmo3 := 0, gTimer := 0 }] 0
      initSingletonState).2.timerObjs.length ≤ 1 := by
  exact C9_singleton_latches _ _ _ (by decide)

/-- Helper: patching preserves the IntcPhandle column. -/
theorem patchRintc_phandles (ph v : Nat) :
    ∀ (rs rs1 : List CM_RISCV_RINTC_INFO), patchRintc rs ph v = some rs1 →
    rs1.map (fun r => r.IntcPhandle) = rs.map (fun r => r.IntcPhandle) := by
  intro rs
  induction rs with
  | nil =>
    intro rs1 h
    simp [patchRintc] at h
  | cons r rest ih =>
    intro rs1 h
    unfold patchRintc at h
    by_cases hph : r.IntcPhandle = ph
    · rw [if_pos hph] at h
      cases h
      simp
    · rw [if_neg hph] at h
      cases ht : patchRintc rest ph v with
      | none =>
        rw [ht] at h
        simp at h
      | some t =>
        rw [ht] at h
        simp only [Option.map_some'] at h
        cases h
        simp [ih t ht]

/-- Helper: a phandle present in the column can be patched. -/
theorem patchRintc_isSome (ph v : Nat) :
    ∀ (rs : List CM_RISCV_RINTC_INFO), ph ∈ rs.map (fun r => r.IntcPhandle) →
    ∃ rs1, patchRintc rs ph v = some rs1 := by
  intro rs
  induction rs with
  | nil =>
    intro h
    simp at h
  | cons r rest ih =>
    intro h
    unfold patchRintc
    by_cases hph : r.IntcPhandle = ph
    · rw [if_pos hph]
      exact ⟨_, rfl⟩
    · rw [if_neg hph]
      simp only [List.map_cons, List.mem_cons] at h
      rcases h with h | h
      · exact absurd h.symm hph
      · obtain ⟨t, ht⟩ := ih h
        exact ⟨r :: t, by rw [ht]; rfl⟩

/-- Helper: a phandle absent from the column cannot be patched. -/
theorem patchRintc_isNone (ph v : Nat) :
    ∀ (rs : List CM_RISCV_RINTC_INFO), ph ∉ rs.map (fun r => r.IntcPhandle) →
    patchRintc rs ph v = none := by
  intro rs
  induction rs with
  | nil =>
    intro _
    rfl
  | cons r rest ih =>
    intro h
    simp only [List.map_cons, List.mem_cons, not_or] at h
    unfold patchRintc
    rw [if_neg (fun hc => h.1 hc.symm), ih h.2]
    rfl

/-- Helper: patching changes at most the first matching record, and only by
writing the given value into its ExtIntCId field. -/
theorem patchRintc_shape (ph v : Nat) :
    ∀ (rs rs1 : List CM_RISCV_RINTC_INFO), patchRintc rs ph v = some rs1 →
    rs1.length = rs.length ∧
    ∀ k, k < rs.length →
      rs1.getD k zeroRintc = rs.getD k zeroRintc ∨
      ((rs.getD k zeroRintc).IntcPhandle = ph ∧
        rs1.getD k zeroRintc = { rs.getD k zeroRintc with ExtIntCId := v }) := by
  intro rs
  induction rs with
  | nil =>
    intro rs1 h
    simp [patchRintc] at h
  | cons r rest ih =>
    intro rs1 h
    unfold patchRintc at h
    by_cases hph : r.IntcPhandle = ph
    · rw [if_pos hph] at h
      cases h
      refine ⟨by simp, ?_⟩
      intro k hk
      cases k with
      | zero => exact Or.inr ⟨hph, rfl⟩
      | succ m => exact Or.inl rfl
    · rw [if_neg hph] at h
      cases ht : patchRintc rest ph v with
      | none =>
        rw [ht] at h
        simp at h
      | some t =>
        rw [ht] at h
        simp only [Option.map_some'] at h
        cases h
        obtain ⟨hlen, hsh⟩ := ih t ht
        refine ⟨by simp [hlen], ?_⟩
        intro k hk
        cases k with
        | zero => exact Or.inl rfl
        | succ m =>
          have hm : m < rest.length := by
            simp only [List.length_cons] at hk
            omega
          rcases hsh m hm with hcase | hcase
          · left
            simpa using hcase
          · right
            simpa using hcase

/-- Helper: the PLIC patch loop preserves the IntcPhandle column. -/
theorem plicPatchLoop_phandles (plicId : Nat) :
    ∀ (pairs : List (Nat × Nat)) (j : Nat) (rs rs1 : List CM_RISCV_RINTC_INFO),
    plicPatchLoop plicId j pairs rs = .ok rs1 →
    rs1.map (fun r => r.IntcPhandle) = rs.map (fun r => r.IntcPhandle) := by
  intro pairs
  induction pairs with
  | nil =>
    intro j rs rs1 h
    cases h
    rfl
  | cons p rest ih =>
    intro j rs rs1 h
    obtain ⟨ph, ty⟩ := p
    unfold plicPatchLoop at h
    by_cases hty : ty = IRQ_S_EXT
    · rw [if_pos hty] at h
      cases hp : patchRintc rs (fdt32 ph)
          (ACPI_BUILD_EXT_INTC_ID plicId (2 * (j / 2) + 1) % U32) with
      | none =>
        rw [hp] at h
        simp at h
      | some rsm =>
        rw [hp] at h
        rw [ih (j + 1) rsm rs1 h, patchRintc_phandles _ _ rs rsm hp]
    · rw [if_neg hty] at h
      exact ih (j + 1) rs rs1 h

/-- Helper: the APLIC patch loop preserves the IntcPhandle column. -/
theorem aplicPatchLoop_phandles (aplicId : Nat) :
    ∀ (pairs : List (Nat × Nat)) (k : Nat) (rs rs1 : List CM_RISCV_RINTC_INFO),
    aplicPatchLoop aplicId k pairs rs = .ok rs1 →
    rs1.map (fun r => r.IntcPhandle) = rs.map (fun r => r.IntcPhandle) := by
  intro pairs
  induction pairs with
  | nil =>
    intro k rs rs1 h
    cases h
    rfl
  | cons p rest ih =>
    intro k rs rs1 h
    obtain ⟨ph, ty⟩ := p
    unfold aplicPatchLoop at h
    cases hp : patchRintc rs (fdt32 ph) (ACPI_BUILD_EXT_INTC_ID aplicId k % U32) with
    | none =>
      rw [hp] at h
      simp at h
    | some rsm =>
      rw [hp] at h
      rw [ih (k + 1) rsm rs1 h, patchRintc_phandles _ _ rs rsm hp]

/-- Helper: the PLIC patch loop succeeds when every supervisor-external target
phandle has a matching RINTC record. -/
theorem plicPatchLoop_ok (plicId : Nat) :
    ∀ (pairs : List (Nat × Nat)) (j : Nat) (rs : List CM_RISCV_RINTC_INFO),
    (∀ p ∈ pairs, p.2 = IRQ_S_EXT → fdt32 p.1 ∈ rs.map (fun r => r.IntcPhandle)) →
    ∃ rs1, plicPatchLoop plicId j pairs rs = .ok rs1 := by
  intro pairs
  induction pairs with
  | nil =>
    intro j rs _
    exact ⟨rs, rfl⟩
  | cons p rest ih =>
    intro j rs h
    obtain ⟨ph, ty⟩ := p
    unfold plicPatchLoop
    by_cases hty : ty = IRQ_S_EXT
    · rw [if_pos hty]
      have hmem : fdt32 ph ∈ rs.map (fun r => r.IntcPhandle) := h (ph, ty) (by simp) hty
      obtain ⟨rsm, hp⟩ := patchRintc_isSome _ _ rs hmem
      rw [hp]
      apply ih (j + 1) rsm
      intro q hq hqty
      rw [patchRintc_phandles _ _ rs rsm hp]
      exact h q (by simp [hq]) hqty
    · rw [if_neg hty]
      exact ih (j + 1) rs (fun q hq hqty => h q (by simp [hq]) hqty)

/-- Helper: a supervisor-external target whose phandle has no matching RINTC
record makes the PLIC patch loop fail with EFI_INVALID_PARAMETER. -/
theorem plicPatchLoop_miss (plicId : Nat) :
    ∀ (pairs : List (Nat × Nat)) (j : Nat) (rs : List CM_RISCV_RINTC_INFO),
    (∃ p ∈ pairs, p.2 = IRQ_S_EXT ∧ fdt32 p.1 ∉ rs.map (fun r => r.IntcPhandle)) →
    plicPatchLoop plicId j pairs rs = .error .invalidParameter := by
  intro pairs
  induction pairs with
  | nil =>
    intro j rs h
    simp at h
  | cons p rest ih =>
    intro j rs h
    obtain ⟨ph, ty⟩ := p
    unfold plicPatchLoop
    by_cases hty : ty = IRQ_S_EXT
    · rw [if_pos hty]
      by_cases hmem : fdt32 ph ∈ rs.map (fun r => r.IntcPhandle)
      · obtain ⟨rsm, hp⟩ := patchRintc_isSome _ _ rs hmem
        rw [hp]
        apply ih (j + 1) rsm
        obtain ⟨q, hq, hqty, hqmiss⟩ := h
        rcases List.mem_cons.mp hq with rfl | hq2
        · exact absurd hmem hqmiss
        · refine ⟨q, hq2, hqty, ?_⟩
          rw [patchRintc_phandles _ _ rs rsm hp]
          exact hqmiss
      · rw [patchRintc_isNone _ _ rs hmem]
    · rw [if_neg hty]
      apply ih (j + 1) rs
      obtain ⟨q, hq, hqty, hqmiss⟩ := h
      rcases List.mem_cons.mp hq with rfl | hq2
      · exact absurd hqty hty
      · exact ⟨q, hq2, hqty, hqmiss⟩

/-- Helper: a target whose phandle has no matching RINTC record makes the
APLIC patch loop fail with EFI_NOT_FOUND. -/
theorem aplicPatchLoop_miss (aplicId : Nat) :
    ∀ (pairs : List (Nat × Nat)) (k : Nat) (rs : List CM_RISCV_RINTC_INFO),
    (∃ p ∈ pairs, fdt32 p.1 ∉ rs.map (fun r => r.IntcPhandle)) →
    aplicPatchLoop aplicId k pairs rs = .error .notFound := by
  intro pairs
  induction pairs with
  | nil =>
    intro k rs h
    simp at h
  | cons p rest ih =>
    intro k rs h
    obtain ⟨ph, ty⟩ := p
    unfold aplicPatchLoop
    by_cases hmem : fdt32 ph ∈ rs.map (fun r => r.IntcPhandle)
    · obtain ⟨rsm, hp⟩ := patchRintc_isSome _ _ rs hmem
      rw [hp]
      apply ih (k + 1) rsm
      obtain ⟨q, hq, hqmiss⟩ := h
      rcases List.mem_cons.mp hq with rfl | hq2
      · exact absurd hmem hqmiss
      · refine ⟨q, hq2, ?_⟩
        rw [patchRintc_phandles _ _ rs rsm hp]
        exact hqmiss
    · rw [patchRintc_isNone _ _ rs hmem]

/-- Helper: successful PLIC patching leaves every RINTC record either
untouched or rewritten only in ExtIntCId with the composite
(PlicId << 24) | (2 * (pairIndex / 2) + 1) of a supervisor-external pair whose
phandle matches the record. -/
theorem plicPatchLoop_shape (plicId : Nat) :
    ∀ (pairs : List (Nat × Nat)) (j : Nat) (rs rs1 : List CM_RISCV_RINTC_INFO),
    plicPatchLoop plicId j pairs rs = .ok rs1 →
    rs1.length = rs.length ∧
    ∀ k, k < rs.length →
      rs1.getD k zeroRintc = rs.getD k zeroRintc ∨
      ∃ jj, jj < pairs.length ∧ (pairs.getD jj (0, 0)).2 = IRQ_S_EXT ∧
        fdt32 (pairs.getD jj (0, 0)).1 = (rs.getD k zeroRintc).IntcPhandle ∧
        rs1.getD k zeroRintc = { rs.getD k zeroRintc with
          ExtIntCId := ACPI_BUILD_EXT_INTC_ID plicId (2 * ((j + jj) / 2) + 1) % U32 } := by
  intro pairs
  induction pairs with
  | nil =>
    intro j rs rs1 h
    cases h
    exact ⟨rfl, fun k hk => Or.inl rfl⟩
  | cons p rest ih =>
    intro j rs rs1 h
    obtain ⟨ph, ty⟩ := p
    unfold plicPatchLoop at h
    by_cases hty : ty = IRQ_S_EXT
    · rw [if_pos hty] at h
      cases hp : patchRintc rs (fdt32 ph)
          (ACPI_BUILD_EXT_INTC_ID plicId (2 * (j / 2) + 1) % U32) with
      | none =>
        rw [hp] at h
        simp at h
      | some rsm =>
        rw [hp] at h
        obtain ⟨hlen1, hsh1⟩ := patchRintc_shape _ _ rs rsm hp
        obtain ⟨hlen2, hsh2⟩ := ih (j + 1) rsm rs1 h
        refine ⟨by rw [hlen2, hlen1], ?_⟩
        intro k hk
        have hk1 : k < rsm.length := by rw [hlen1]; exact hk
        rcases hsh2 k hk1 with h2 | ⟨jj, hjj, hjty, hjph, h2⟩
        · rcases hsh1 k hk with h1 | ⟨hph1, h1⟩
          · exact Or.inl (by rw [h2, h1])
          · right
            refine ⟨0, by simp, by simpa using hty, by simpa using hph1.symm, ?_⟩
            rw [h2, h1]
            simp
        · rcases hsh1 k hk with h1 | ⟨hph1, h1⟩
          · right
            refine ⟨jj + 1, by simp only [List.length_cons]; omega,
              by simpa only [List.getD_cons_succ] using hjty, ?_, ?_⟩
            · simp only [List.getD_cons_succ]
              rw [hjph, h1]
            · rw [h2, h1]
              have harith : j + 1 + jj = j + (jj + 1) := by omega
              rw [harith]
          · right
            refine ⟨jj + 1, by simp only [List.length_cons]; omega,
              by simpa only [List.getD_cons_succ] using hjty, ?_, ?_⟩
            · simp only [List.getD_cons_succ]
              rw [hjph, h1]
            · rw [h2, h1]
              have harith : j + 1 + jj = j + (jj + 1) := by omega
              rw [harith]
    · rw [if_neg hty] at h
      obtain ⟨hlen2, hsh2⟩ := ih (j + 1) rs rs1 h
      refine ⟨hlen2, ?_⟩
      intro k hk
      rcases hsh2 k hk with h2 | ⟨jj, hjj, hjty, hjph, h2⟩
      · exact Or.inl h2
      · right
        refine ⟨jj + 1, by simp only [List.length_cons]; omega,
          by simpa only [List.getD_cons_succ] using hjty,
          by simpa only [List.getD_cons_succ] using hjph, ?_⟩
        rw [h2]
        have harith : j + 1 + jj = j + (jj + 1) := by omega
        rw [harith]

/-- Helper: successful APLIC patching leaves every RINTC record either
untouched or rewritten only in ExtIntCId with the composite
(AplicId << 24) | pairIndex of a pair whose phandle matches the record. -/
theorem aplicPatchLoop_shape (aplicId : Nat) :
    ∀ (pairs : List (Nat × Nat)) (j : Nat) (rs rs1 : List CM_RISCV_RINTC_INFO),
    aplicPatchLoop aplicId j pairs rs = .ok rs1 →
    rs1.length = rs.length ∧
    ∀ k, k < rs.length →
      rs1.getD k zeroRintc = rs.getD k zeroRintc ∨
      ∃ jj, jj < pairs.length ∧
        fdt32 (pairs.getD jj (0, 0)).1 = (rs.getD k zeroRintc).IntcPhandle ∧
        rs1.getD k zeroRintc = { rs.getD k zeroRintc with
          ExtIntCId := ACPI_BUILD_EXT_INTC_ID aplicId (j + jj) % U32 } := by
  intro pairs
  induction pairs with
  | nil =>
    intro j rs rs1 h
    cases h
    exact ⟨rfl, fun k hk => Or.inl rfl⟩
  | cons p rest ih =>
    intro j rs rs1 h
    obtain ⟨ph, ty⟩ := p
    unfold aplicPatchLoop at h
    cases hp : patchRintc rs (fdt32 ph) (ACPI_BUILD_EXT_INTC_ID aplicId j % U32) with
    | none =>
      rw [hp] at h
      simp at h
    | some rsm =>
      rw [hp] at h
      obtain ⟨hlen1, hsh1⟩ := patchRintc_shape _ _ rs rsm hp
      obtain ⟨hlen2, hsh2⟩ := ih (j + 1) rsm rs1 h
      refine ⟨by rw [hlen2, hlen1], ?_⟩
      intro k hk
      have hk1 : k < rsm.length := by rw [hlen1]; exact hk
      rcases hsh2 k hk1 with h2 | ⟨jj, hjj, hjph, h2⟩
      · rcases hsh1 k hk with h1 | ⟨hph1, h1⟩
        · exact Or.inl (by rw [h2, h1])
        · right
          refine ⟨0, by simp, by simpa using hph1.symm, ?_⟩
          rw [h2, h1]
          simp
      · rcases hsh1 k hk with h1 | ⟨hph1, h1⟩
        · right
          refine ⟨jj + 1, by simp only [List.length_cons]; omega, ?_, ?_⟩
          · simp only [List.getD_cons_succ]
            rw [hjph, h1]
          · rw [h2, h1]
            have harith : j + 1 + jj = j + (jj + 1) := by omega
            rw [harith]
        · right
          refine ⟨jj + 1, by simp only [List.length_cons]; omega, ?_, ?_⟩
          · simp only [List.getD_cons_succ]
            rw [hjph, h1]
          · rw [h2, h1]
            have harith : j + 1 + jj = j + (jj + 1) := by omega
            rw [harith]

/-- Helper: length of the GSI assignment sequence. -/
theorem gsiSeq_length (ns : List Nat) : ∀ base, (gsiSeq base ns).length = ns.length := by
  induction ns with
  | nil =>
    intro base
    rfl
  | cons n rest ih =>
    intro base
    simp only [gsiSeq, List.length_cons, ih]

/-- Helper: the NumSources column of the GSI assignment sequence. -/
theorem gsiSeq_map_snd (ns : List Nat) : ∀ base, (gsiSeq base ns).map Prod.snd = ns := by
  induction ns with
  | nil =>
    intro base
    rfl
  | cons n rest ih =>
    intro base
    simp only [gsiSeq, List.map_cons, ih]

/-- Helper: when the accumulated sum stays below 2^32 the UINT32 accumulator
never wraps and each assigned base is the exact partial sum. -/
theorem gsiSeq_exact (ns : List Nat) :
    ∀ (base i : Nat), i < ns.length → base + ns.sum < U32 →
    (gsiSeq base ns).getD i (0, 0) = (base + (ns.take i).sum, ns.getD i 0) := by
  induction ns with
  | nil =>
    intro base i hi _
    simp at hi
  | cons n rest ih =>
    intro base i hi hsum
    cases i with
    | zero =>
      simp [gsiSeq]
    | succ m =>
      have hm : m < rest.length := by
        simp only [List.length_cons] at hi
        omega
      have hsum2 : base + n + rest.sum < U32 := by
        simp only [List.sum_cons] at hsum
        omega
      have hbn : (base + n) % U32 = base + n := by
        apply Nat.mod_eq_of_lt
        omega
      have hih := ih (base + n) m hm hsum2
      simp only [gsiSeq, List.getD_cons_succ]
      rw [hbn, hih]
      simp only [List.take_succ_cons, List.sum_cons, List.getD_cons_succ, Prod.mk.injEq]
      refine ⟨by omega, trivial⟩

/-- Helper: closed form of the GSI assignment over identical instances,
exhibiting the UINT32 wrap-around. -/
theorem gsiSeq_replicate (n : Nat) :
    ∀ (k base i : Nat), base < U32 → i < k →
    (gsiSeq base (List.replicate k n)).getD i (0, 0) = ((base + i * n) % U32, n) := by
  intro k
  induction k with
  | zero =>
    intro base i _ hi
    omega
  | succ m ih =>
    intro base i hb hi
    simp only [List.replicate_succ, gsiSeq]
    cases i with
    | zero =>
      simp [Nat.mod_eq_of_lt hb]
    | succ p =>
      simp only [List.getD_cons_succ]
      rw [ih ((base + n) % U32) p (Nat.mod_lt _ (by norm_num [U32])) (by omega),
        Nat.mod_add_mod]
      have harith : base + n + p * n = base + (p + 1) * n := by ring
      rw [harith]

/-- Helper: getD through a map. -/
theorem getD_map {α β : Type} (f : α → β) (l : List α) (i : Nat) (d : α) :
    (l.map f).getD i (f d) = f (l.getD i d) := by
  induction l generalizing i with
  | nil =>
    cases i <;> rfl
  | cons a l ih =>
    cases i with
    | zero => rfl
    | succ m =>
      simp only [List.map_cons, List.getD_cons_succ]
      exact ih m

/-- Helper: the sum of a prefix is at most the sum of the list (over Nat). -/
theorem sum_take_le_sum (l : List Nat) (m : Nat) : (l.take m).sum ≤ l.sum := by
  conv_rhs => rw [← List.take_append_drop m l]
  rw [List.sum_append]
  omega

/-- Helper: prefix sums are monotone (over Nat). -/
theorem sum_take_mono (l : List Nat) {m n : Nat} (h : m ≤ n) :
    (l.take m).sum ≤ (l.take n).sum := by
  have heq : l.take m = (l.take n).take m := by
    rw [List.take_take, Nat.min_eq_left h]
  rw [heq]
  exact sum_take_le_sum _ _

/-- Helper: extending a prefix by one element adds that element to the sum. -/
theorem sum_take_getD (l : List Nat) :
    ∀ i, i < l.length → (l.take (i + 1)).sum = (l.take i).sum + l.getD i 0 := by
  induction l with
  | nil =>
    intro i hi
    simp at hi
  | cons a l ih =>
    intro i hi
    cases i with
    | zero => simp
    | succ m =>
      have hm : m < l.length := by
        simp only [List.length_cons] at hi
        omega
      simp only [List.take_succ_cons, List.sum_cons, List.getD_cons_succ, ih m hm]
      omega

/-- Helper: any record list whose (GsiBase, NumSources) column equals a GSI
assignment sequence over per-instance source counts below 2^16, with at most
2^16 instances, has exact partial-sum bases and pairwise disjoint claimed
ranges. -/
theorem gsi_props_of_map {α : Type} (recs : List α) (fG fN : α → Nat) (dflt : α)
    (hdG : fG dflt = 0) (hdN : fN dflt = 0) (ns : List Nat)
    (hmap : recs.map (fun p => (fG p, fN p)) = gsiSeq 0 ns)
    (hns : ∀ n ∈ ns, n < U16) (hlen : ns.length ≤ U16) :
    recs.length = ns.length ∧
    (∀ i, i < recs.length → fG (recs.getD i dflt) = ((recs.take i).map fN).sum) ∧
    (∀ i j x, i < j → j < recs.length →
      ¬(fG (recs.getD i dflt) ≤ x ∧
        x < fG (recs.getD i dflt) + fN (recs.getD i dflt) ∧
        fG (recs.getD j dflt) ≤ x ∧
        x < fG (recs.getD j dflt) + fN (recs.getD j dflt))) := by
  have hrlen : recs.length = ns.length := by
    have := congrArg List.length hmap
    simpa [gsiSeq_length] using this
  have hsum : ns.sum < U32 := by
    have h1 : ns.sum ≤ ns.length * (U16 - 1) := by
      have := List.sum_le_card_nsmul ns (U16 - 1) (fun x hx => by
        have := hns x hx
        omega)
      simpa [smul_eq_mul, Nat.mul_comm] using this
    have h2 : ns.length * (U16 - 1) ≤ U16 * (U16 - 1) :=
      Nat.mul_le_mul_right _ hlen
    have h3 : U16 * (U16 - 1) < U32 := by norm_num [U16, U32]
    omega
  have hpair : ∀ i, i < recs.length →
      (fG (recs.getD i dflt), fN (recs.getD i dflt)) =
        ((ns.take i).sum, ns.getD i 0) := by
    intro i hi
    have h0 : (fG (recs.getD i dflt), fN (recs.getD i dflt)) =
        (recs.map (fun p => (fG p, fN p))).getD i (0, 0) := by
      have := getD_map (fun p => (fG p, fN p)) recs i dflt
      rw [hdG, hdN] at this
      exact this.symm
    rw [h0, hmap, gsiSeq_exact ns 0 i (by omega) (by omega)]
    simp
  have hN : ∀ i, i < recs.length → fN (recs.getD i dflt) = ns.getD i 0 := by
    intro i hi
    have := congrArg Prod.snd (hpair i hi)
    simpa using this
  have hG : ∀ i, i < recs.length → fG (recs.getD i dflt) = (ns.take i).sum := by
    intro i hi
    have := congrArg Prod.fst (hpair i hi)
    simpa using this
  refine ⟨hrlen, ?_, ?_⟩
  · intro i hi
    have htake : (recs.take i).map fN = ns.take i := by
      have h1 : (recs.take i).map (fun p => (fG p, fN p)) =
          (gsiSeq 0 ns).take i := by
        rw [List.map_take, hmap]
      have h3 : ((gsiSeq 0 ns).take i).map Prod.snd = ns.take i := by
        rw [List.map_take, gsiSeq_map_snd]
      calc (recs.take i).map fN
          = ((recs.take i).map (fun p => (fG p, fN p))).map Prod.snd := by
            rw [List.map_map]
            rfl
        _ = ((gsiSeq 0 ns).take i).map Prod.snd := by rw [h1]
        _ = ns.take i := h3
    rw [hG i hi, htake]
  · intro i j x hij hj habs
    obtain ⟨hx1, hx2, hx3, hx4⟩ := habs
    have hi : i < recs.length := by omega
    have hgi := hG i hi
    have hgj := hG j hj
    have hni := hN i hi
    have hstep : (ns.take (i + 1)).sum = (ns.take i).sum + ns.getD i 0 :=
      sum_take_getD ns i (by omega)
    have hmono : (ns.take (i + 1)).sum ≤ (ns.take j).sum :=
      sum_take_mono ns (by omega)
    rw [hgi, hni] at hx2
    rw [hgj] at hx3
    omega

/-- Helper: on success, the (GsiBase, NumSources) column of the emitted PLIC
records is exactly the GSI assignment sequence over the truncated riscv,ndev
values, in device-tree order. -/
theorem plicParse_gsi :
    ∀ (nodes : List PlicDtNode) (rs : List CM_RISCV_RINTC_INFO) (plicId base : Nat)
      (rs2 : List CM_RISCV_RINTC_INFO) (recs : List CM_RISCV_PLIC_INFO),
    plicParse nodes rs plicId base = .ok (rs2, recs) →
    recs.map (fun p => (p.GsiBase, p.NumSources)) =
      gsiSeq base (nodes.map (fun nd => fdt32 nd.ndev % U16)) := by
  intro nodes
  induction nodes with
  | nil =>
    intro rs plicId base rs2 recs h
    simp only [plicParse, Except.ok.injEq, Prod.mk.injEq] at h
    rw [← h.2]
    rfl
  | cons node rest ih =>
    intro rs plicId base rs2 recs h
    simp only [plicParse] at h
    by_cases hne : node.intExt = []
    · rw [if_pos hne] at h
      simp at h
    · rw [if_neg hne] at h
      cases hpat : plicPatchLoop plicId 0 node.intExt rs with
      | error e =>
        rw [hpat] at h
        simp at h
      | ok rs1 =>
        simp only [hpat] at h
        cases hrec : plicParse rest rs1 (plicId + 1)
            ((base + fdt32 node.ndev % U16) % U32) with
        | error e =>
          rw [hrec] at h
          simp at h
        | ok pr =>
          obtain ⟨rs3, recs3⟩ := pr
          simp only [hrec, Except.ok.injEq, Prod.mk.injEq] at h
          rw [← h.2]
          simp only [List.map_cons, gsiSeq]
          rw [ih rs1 (plicId + 1) _ rs3 recs3 hrec]

/-- Helper: on success, the (GsiBase, NumSources) column of the emitted APLIC
records is exactly the GSI assignment sequence over the truncated
riscv,num-sources values, in device-tree order. -/
theorem aplicParse_gsi :
    ∀ (nodes : List AplicDtNode) (rs : List CM_RISCV_RINTC_INFO) (aplicId base : Nat)
      (rs2 : List CM_RISCV_RINTC_INFO) (recs : List CM_RISCV_APLIC_INFO),
    aplicParse nodes rs aplicId base = .ok (rs2, recs) →
    recs.map (fun p => (p.GsiBase, p.NumSources)) =
      gsiSeq base (nodes.map (fun nd => fdt32 nd.numSources % U16)) := by
  intro nodes
  induction nodes with
  | nil =>
    intro rs aplicId base rs2 recs h
    simp only [aplicParse, Except.ok.injEq, Prod.mk.injEq] at h
    rw [← h.2]
    rfl
  | cons node rest ih =>
    intro rs aplicId base rs2 recs h
    simp only [aplicParse] at h
    cases hpat : aplicPatchStep aplicId node.intExt rs with
    | error e =>
      rw [hpat] at h
      simp at h
    | ok rs1 =>
      simp only [hpat] at h
      cases hrec : aplicParse rest rs1 (aplicId + 1)
          ((base + fdt32 node.numSources % U16) % U32) with
      | error e =>
        rw [hrec] at h
        simp at h
      | ok pr =>
        obtain ⟨rs3, recs3⟩ := pr
        simp only [hrec, Except.ok.injEq, Prod.mk.injEq] at h
        rw [← h.2]
        simp only [List.map_cons, gsiSeq]
        rw [ih rs1 (aplicId + 1) _ rs3 recs3 hrec]

/-- Helper: the PLIC parser succeeds when every node has a non-empty
interrupts-extended property all of whose supervisor-external phandles match
some RINTC record. -/
theorem plicParse_ok :
    ∀ (nodes : List PlicDtNode) (rs : List CM_RISCV_RINTC_INFO) (plicId base : Nat),
    (∀ node ∈ nodes, node.intExt ≠ [] ∧
      ∀ p ∈ node.intExt, p.2 = IRQ_S_EXT → fdt32 p.1 ∈ rs.map (fun r => r.IntcPhandle)) →
    ∃ rs2 recs, plicParse nodes rs plicId base = .ok (rs2, recs) := by
  intro nodes
  induction nodes with
  | nil =>
    intro rs plicId base _
    exact ⟨rs, [], rfl⟩
  | cons node rest ih =>
    intro rs plicId base h
    have hn := h node (by simp)
    obtain ⟨rs1, hpat⟩ := plicPatchLoop_ok plicId node.intExt 0 rs hn.2
    have hphs := plicPatchLoop_phandles plicId node.intExt 0 rs rs1 hpat
    have hrest : ∀ nd ∈ rest, nd.intExt ≠ [] ∧
        ∀ p ∈ nd.intExt, p.2 = IRQ_S_EXT →
          fdt32 p.1 ∈ rs1.map (fun r => r.IntcPhandle) := by
      intro nd hnd
      have hh := h nd (by simp [hnd])
      refine ⟨hh.1, fun p hp hty => ?_⟩
      rw [hphs]
      exact hh.2 p hp hty
    obtain ⟨rs2, recs, hrec⟩ :=
      ih rs1 (plicId + 1) ((base + fdt32 node.ndev % U16) % U32) hrest
    refine ⟨rs2,
      { Version := 1, PlicId := plicId % U8, NumSources := fdt32 node.ndev % U16,
        MaxPriority := 0, Flags := 0, PlicSize := fdt64 node.regSize % U32,
        PlicAddress := fdt64 node.regAddr, GsiBase := base,
        Phandle := fdt32 node.phandle } :: recs, ?_⟩
    simp only [plicParse]
    rw [if_neg hn.1]
    simp only [hpat, hrec]

/-- Helper: 65539 PLIC instances with riscv,ndev = 65535 (the largest value
the UINT16 NumSources field can hold) wrap the UINT32 GsiBase accumulator:
instance 65538 is assigned GsiBase 65534, not the sum 4295032830 of the
NumSources of instances 0..65537, and its claimed range overlaps instance 1's
range (both contain GSI 70000). -/
theorem plic_gsi_wrap_example :
    ∃ (rs2 : List CM_RISCV_RINTC_INFO) (recs : List CM_RISCV_PLIC_INFO),
      plicParse
        (List.replicate 65539
          { intExt := [(1, 9)], regAddr := 0, regSize := 0, ndev := 65535, phandle := 1 })
        [{ zeroRintc with IntcPhandle := 1 }] 0 0 = .ok (rs2, recs) ∧
      recs.length = 65539 ∧
      ((recs.take 65538).map (fun p => p.NumSources)).sum = 4295032830 ∧
      (recs.getD 65538 zeroPlic).GsiBase = 65534 ∧
      (65534 : Nat) ≠ 4295032830 ∧
      (recs.getD 1 zeroPlic).GsiBase ≤ 70000 ∧
      70000 < (recs.getD 1 zeroPlic).GsiBase + (recs.getD 1 zeroPlic).NumSources ∧
      (recs.getD 65538 zeroPlic).GsiBase ≤ 70000 ∧
      70000 < (recs.getD 65538 zeroPlic).GsiBase + (recs.getD 65538 zeroPlic).NumSources := by
  have hyp : ∀ node ∈ List.replicate 65539
      ({ intExt := [(1, 9)], regAddr := 0, regSize := 0, ndev := 65535,
         phandle := 1 } : PlicDtNode),
      node.intExt ≠ [] ∧ ∀ p ∈ node.intExt, p.2 = IRQ_S_EXT →
        fdt32 p.1 ∈ ([{ zeroRintc with IntcPhandle := 1 }] :
          List CM_RISCV_RINTC_INFO).map (fun r => r.IntcPhandle) := by
    intro node hnode
    rw [List.eq_of_mem_replicate hnode]
    refine ⟨by decide, ?_⟩
    intro p hp _
    simp only [List.mem_singleton] at hp
    subst hp
    decide
  obtain ⟨rs2, recs, hok⟩ := plicParse_ok _ _ 0 0 hyp
  have hmap := plicParse_gsi _ _ 0 0 rs2 recs hok
  have hns : (List.replicate 65539
      ({ intExt := [(1, 9)], regAddr := 0, regSize := 0, ndev := 65535,
         phandle := 1 } : PlicDtNode)).map (fun nd => fdt32 nd.ndev % U16) =
      List.replicate 65539 65535 := by
    rw [List.map_replicate]
    norm_num [fdt32, U16, U32]
  rw [hns] at hmap
  have hlen : recs.length = 65539 := by
    have h := congrArg List.length hmap
    rw [List.length_map, gsiSeq_length, List.length_replicate] at h
    exact h
  have hget : ∀ i, i < 65539 →
      ((recs.getD i zeroPlic).GsiBase, (recs.getD i zeroPlic).NumSources) =
        ((0 + i * 65535) % U32, 65535) := by
    intro i hi
    have h0 := getD_map (fun p => (p.GsiBase, p.NumSources)) recs i zeroPlic
    rw [hmap] at h0
    rw [← h0]
    exact gsiSeq_replicate 65535 65539 0 i (by norm_num [U32]) hi
  have hg1 := hget 1 (by norm_num)
  have hg65538 := hget 65538 (by norm_num)
  have hv1 : ((0 + 1 * 65535) % U32 : Nat) = 65535 := by norm_num [U32]
  have hv65538 : ((0 + 65538 * 65535) % U32 : Nat) = 65534 := by norm_num [U32]
  rw [hv1, Prod.mk.injEq] at hg1
  rw [hv65538, Prod.mk.injEq] at hg65538
  have htakemap : (recs.take 65538).map (fun p => p.NumSources) =
      List.replicate 65538 65535 := by
    calc (recs.take 65538).map (fun p => p.NumSources)
        = ((recs.take 65538).map (fun p => (p.GsiBase, p.NumSources))).map Prod.snd := by
          rw [List.map_map]
          rfl
      _ = ((recs.map (fun p => (p.GsiBase, p.NumSources))).take 65538).map Prod.snd := by
          rw [List.map_take]
      _ = ((gsiSeq 0 (List.replicate 65539 65535)).take 65538).map Prod.snd := by
          rw [hmap]
      _ = ((gsiSeq 0 (List.replicate 65539 65535)).map Prod.snd).take 65538 := by
          rw [List.map_take]
      _ = (List.replicate 65539 (65535 : Nat)).take 65538 := by rw [gsiSeq_map_snd]
      _ = List.replicate 65538 65535 := by
          rw [List.take_replicate]
          norm_num
  have hsumv : (List.replicate 65538 (65535 : Nat)).sum = 4295032830 := by
    rw [List.sum_replicate]
    simp [smul_eq_mul]
  refine ⟨rs2, recs, hok, hlen, ?_, hg65538.1, by norm_num, ?_, ?_, ?_, ?_⟩
  · rw [htakemap, hsumv]
  · rw [hg1.1]
    norm_num
  · rw [hg1.1, hg1.2]
    norm_num
  · rw [hg65538.1]
    norm_num
  · rw [hg65538.1, hg65538.2]
    norm_num

/-- C2 (amended): for both the PLIC and the APLIC parser, whenever the number
of same-type instances is at most 2^16 (so the UINT32 GsiBase accumulator of
16-bit NumSources values cannot wrap), instance i's GsiBase equals the sum of
the NumSources of instances 0..i-1 — in particular instance 0 gets 0 — and the
claimed ranges [GsiBase, GsiBase + NumSources) of distinct instances never
overlap.  Without that bound the accumulator is taken modulo 2^32. -/
theorem C2_gsi_base_amended :
    (∀ (nodes : List PlicDtNode) (rs rs2 : List CM_RISCV_RINTC_INFO)
       (recs : List CM_RISCV_PLIC_INFO),
      plicParse nodes rs 0 0 = .ok (rs2, recs) →
      nodes.length ≤ U16 →
      recs.length = nodes.length ∧
      (∀ i, i < recs.length →
        (recs.getD i zeroPlic).GsiBase =
          ((recs.take i).map (fun p => p.NumSources)).sum) ∧
      (∀ i j x, i < j → j < recs.length →
        ¬((recs.getD i zeroPlic).GsiBase ≤ x ∧
          x < (recs.getD i zeroPlic).GsiBase + (recs.getD i zeroPlic).NumSources ∧
          (recs.getD j zeroPlic).GsiBase ≤ x ∧
          x < (recs.getD j zeroPlic).GsiBase + (recs.getD j zeroPlic).NumSources))) ∧
    (∀ (nodes : List AplicDtNode) (rs rs2 : List CM_RISCV_RINTC_INFO)
       (recs : List CM_RISCV_APLIC_INFO),
      aplicParse nodes rs 0 0 = .ok (rs2, recs) →
      nodes.length ≤ U16 →
      recs.length = nodes.length ∧
      (∀ i, i < recs.length →
        (recs.getD i zeroAplic).GsiBase =
          ((recs.take i).map (fun p => p.NumSources)).sum) ∧
      (∀ i j x, i < j → j < recs.length →
        ¬((recs.getD i zeroAplic).GsiBase ≤ x ∧
          x < (recs.getD i zeroAplic).GsiBase + (recs.getD i zeroAplic).NumSources ∧
          (recs.getD j zeroAplic).GsiBase ≤ x ∧
          x < (recs.getD j zeroAplic).GsiBase + (recs.getD j zeroAplic).NumSources))) := by
  constructor
  · intro nodes rs rs2 recs hok hlen
    have hmap := plicParse_gsi nodes rs 0 0 rs2 recs hok
    have hprops := gsi_props_of_map recs (fun p => p.GsiBase) (fun p => p.NumSources)
      zeroPlic rfl rfl (nodes.map (fun nd => fdt32 nd.ndev % U16)) hmap
      (by
        intro n hn
        obtain ⟨nd, _, rfl⟩ := List.mem_map.mp hn
        exact Nat.mod_lt _ (by norm_num [U16]))
      (by
        rw [List.length_map]
        exact hlen)
    refine ⟨?_, hprops.2.1, hprops.2.2⟩
    rw [hprops.1, List.length_map]
  · intro nodes rs rs2 recs hok hlen
    have hmap := aplicParse_gsi nodes rs 0 0 rs2 recs hok
    have hprops := gsi_props_of_map recs (fun p => p.GsiBase) (fun p => p.NumSources)
      zeroAplic rfl rfl (nodes.map (fun nd => fdt32 nd.numSources % U16)) hmap
      (by
        intro n hn
        obtain ⟨nd, _, rfl⟩ := List.mem_map.mp hn
        exact Nat.mod_lt _ (by norm_num [U16]))
      (by
        rw [List.length_map]
        exact hlen)
    refine ⟨?_, hprops.2.1, hprops.2.2⟩
    rw [hprops.1, List.length_map]

/-- C2 witness: the amended theorem applied to the claim's own example — two
PLIC nodes with riscv,ndev = 32 and 16 in that device-tree order get
GsiBase 0 and 32, and their ranges do not overlap. -/
theorem C2_gsi_base_amended_witness :
    (([{ Version := 1, PlicId := 0, NumSources := 32, MaxPriority := 0, Flags := 0,
         PlicSize := 0, PlicAddress := 0, GsiBase := 0, Phandle := 1 },
       { Version := 1, PlicId := 1, NumSources := 16, MaxPriority := 0, Flags := 0,
         PlicSize := 0, PlicAddress := 0, GsiBase := 32, Phandle := 1 }] :
        List CM_RISCV_PLIC_INFO).getD 0 zeroPlic).GsiBase =
      ((([{ Version := 1, PlicId := 0, NumSources := 32, MaxPriority := 0, Flags := 0,
            PlicSize := 0, PlicAddress := 0, GsiBase := 0, Phandle := 1 },
          { Version := 1, PlicId := 1, NumSources := 16, MaxPriority := 0, Flags := 0,
            PlicSize := 0, PlicAddress := 0, GsiBase := 32, Phandle := 1 }] :
           List CM_RISCV_PLIC_INFO).take 0).map (fun p => p.NumSources)).sum ∧
    (([{ Version := 1, PlicId := 0, NumSources := 32, MaxPriority := 0, Flags := 0,
         PlicSize := 0, PlicAddress := 0, GsiBase := 0, Phandle := 1 },
       { Version := 1, PlicId := 1, NumSources := 16, MaxPriority := 0, Flags := 0,
         PlicSize := 0, PlicAddress := 0, GsiBase := 32, Phandle := 1 }] :
        List CM_RISCV_PLIC_INFO).getD 1 zeroPlic).GsiBase =
      ((([{ Version := 1, PlicId := 0, NumSources := 32, MaxPriority := 0, Flags := 0,
            PlicSize := 0, PlicAddress := 0, GsiBase := 0, Phandle := 1 },
          { Version := 1, PlicId := 1, NumSources := 16, MaxPriority := 0, Flags := 0,
            PlicSize := 0, PlicAddress := 0, GsiBase := 32, Phandle := 1 }] :
           List CM_RISCV_PLIC_INFO).take 1).map (fun p => p.NumSources)).sum ∧
    ¬((([{ Version := 1, PlicId := 0, NumSources := 32, MaxPriority := 0, Flags := 0,
           PlicSize := 0, PlicAddress := 0, GsiBase := 0, Phandle := 1 },
         { Version := 1, PlicId := 1, NumSources := 16, MaxPriority := 0, Flags := 0,
           PlicSize := 0, PlicAddress := 0, GsiBase := 32, Phandle := 1 }] :
          List CM_RISCV_PLIC_INFO).getD 0 zeroPlic).GsiBase ≤ 33 ∧
       33 < (([{ Version := 1, PlicId := 0, NumSources := 32, MaxPriority := 0, Flags := 0,
                 PlicSize := 0, PlicAddress := 0, GsiBase := 0, Phandle := 1 },
               { Version := 1, PlicId := 1, NumSources := 16, MaxPriority := 0, Flags := 0,
                 PlicSize := 0, PlicAddress := 0, GsiBase := 32, Phandle := 1 }] :
                List CM_RISCV_PLIC_INFO).getD 0 zeroPlic).GsiBase +
             (([{ Version := 1, PlicId := 0, NumSources := 32, MaxPriority := 0, Flags := 0,
                  PlicSize := 0, PlicAddress := 0, GsiBase := 0, Phandle := 1 },
                { Version := 1, PlicId := 1, NumSources := 16, MaxPriority := 0, Flags := 0,
                  PlicSize := 0, PlicAddress := 0, GsiBase := 32, Phandle := 1 }] :
                 List CM_RISCV_PLIC_INFO).getD 0 zeroPlic).NumSources ∧
       (([{ Version := 1, PlicId := 0, NumSources := 32, MaxPriority := 0, Flags := 0,
            PlicSize := 0, PlicAddress := 0, GsiBase := 0, Phandle := 1 },
          { Version := 1, PlicId := 1, NumSources := 16, MaxPriority := 0, Flags := 0,
            PlicSize := 0, PlicAddress := 0, GsiBase := 32, Phandle := 1 }] :
           List CM_RISCV_PLIC_INFO).getD 1 zeroPlic).GsiBase ≤ 33 ∧
       33 < (([{ Version := 1, PlicId := 0, NumSources := 32, MaxPriority := 0, Flags := 0,
                 PlicSize := 0, PlicAddress := 0, GsiBase := 0, Phandle := 1 },
               { Version := 1, PlicId := 1, NumSources := 16, MaxPriority := 0, Flags := 0,
                 PlicSize := 0, PlicAddress := 0, GsiBase := 32, Phandle := 1 }] :
                List CM_RISCV_PLIC_INFO).getD 1 zeroPlic).GsiBase +
             (([{ Version := 1, PlicId := 0, NumSources := 32, MaxPriority := 0, Flags := 0,
                  PlicSize := 0, PlicAddress := 0, GsiBase := 0, Phandle := 1 },
                { Version := 1, PlicId := 1, NumSources := 16, MaxPriority := 0, Flags := 0,
                  PlicSize := 0, PlicAddress := 0, GsiBase := 32, Phandle := 1 }] :
                 List CM_RISCV_PLIC_INFO).getD 1 zeroPlic).NumSources) := by
  have h := C2_gsi_base_amended.1
    [{ intExt := [(1, 9)], regAddr := 0, regSize := 0, ndev := 32, phandle := 1 },
     { intExt := [(1, 9)], regAddr := 0, regSize := 0, ndev := 16, phandle := 1 }]
    [{ zeroRintc with IntcPhandle := 1 }]
    [{ zeroRintc with IntcPhandle := 1, ExtIntCId := 16777217 }]
    [{ Version := 1, PlicId := 0, NumSources := 32, MaxPriority := 0, Flags := 0,
       PlicSize := 0, PlicAddress := 0, GsiBase := 0, Phandle := 1 },
     { Version := 1, PlicId := 1, NumSources := 16, MaxPriority := 0, Flags := 0,
       PlicSize := 0, PlicAddress := 0, GsiBase := 32, Phandle := 1 }]
    (by decide) (by norm_num [U16])
  exact ⟨h.2.1 0 (by norm_num), h.2.1 1 (by norm_num), h.2.2 0 1 33 (by norm_num) (by norm_num)⟩

/-- C7 counterexample: a PLIC node listing a supervisor-external interrupt
target whose phandle matches no RINTC record makes the PLIC parser fail with
EFI_INVALID_PARAMETER, not with the claimed EFI_NOT_FOUND. -/
theorem C7_plic_error_status_counterexample :
    plicParse [{ intExt := [(5, 9)], regAddr := 0, regSize := 0, ndev := 32,
                 phandle := 7 }] [] 0 0 = .error .invalidParameter ∧
    (Except.error EFI_STATUS.invalidParameter :
      Except EFI_STATUS (List CM_RISCV_RINTC_INFO × List CM_RISCV_PLIC_INFO)) ≠
      .error .notFound := by
  decide

/-- C7 (amended): for every interrupt target listed in a PLIC or APLIC node's
interrupts-extended property with the supervisor-external type, the parser
locates the RINTC record whose IntcPhandle matches the listed phandle and
writes the composite (instance-index << 24) | local-context-index into its
ExtIntCId — the context index being 2 * (pairIndex / 2) + 1 for the PLIC and
pairIndex for the APLIC (which patches every pair, not only
supervisor-external ones) — and a miss is a hard error: EFI_INVALID_PARAMETER
in the PLIC parser and EFI_NOT_FOUND in the APLIC parser. -/
theorem C7_ext_intc_amended :
    (∀ (plicId j : Nat) (pairs : List (Nat × Nat)) (rs : List CM_RISCV_RINTC_INFO),
      (∃ p ∈ pairs, p.2 = IRQ_S_EXT ∧ fdt32 p.1 ∉ rs.map (fun r => r.IntcPhandle)) →
      plicPatchLoop plicId j pairs rs = .error .invalidParameter) ∧
    (∀ (aplicId k : Nat) (pairs : List (Nat × Nat)) (rs : List CM_RISCV_RINTC_INFO),
      (∃ p ∈ pairs, fdt32 p.1 ∉ rs.map (fun r => r.IntcPhandle)) →
      aplicPatchLoop aplicId k pairs rs = .error .notFound) ∧
    (∀ (plicId : Nat) (pairs : List (Nat × Nat)) (rs rs1 : List CM_RISCV_RINTC_INFO),
      plicPatchLoop plicId 0 pairs rs = .ok rs1 →
      rs1.length = rs.length ∧
      ∀ k, k < rs.length →
        rs1.getD k zeroRintc = rs.getD k zeroRintc ∨
        ∃ jj, jj < pairs.length ∧ (pairs.getD jj (0, 0)).2 = IRQ_S_EXT ∧
          fdt32 (pairs.getD jj (0, 0)).1 = (rs.getD k zeroRintc).IntcPhandle ∧
          rs1.getD k zeroRintc = { rs.getD k zeroRintc with
            ExtIntCId := ACPI_BUILD_EXT_INTC_ID plicId (2 * (jj / 2) + 1) % U32 }) ∧
    (∀ (aplicId : Nat) (pairs : List (Nat × Nat)) (rs rs1 : List CM_RISCV_RINTC_INFO),
      aplicPatchLoop aplicId 0 pairs rs = .ok rs1 →
      rs1.length = rs.length ∧
      ∀ k, k < rs.length →
        rs1.getD k zeroRintc = rs.getD k zeroRintc ∨
        ∃ jj, jj < pairs.length ∧
          fdt32 (pairs.getD jj (0, 0)).1 = (rs.getD k zeroRintc).IntcPhandle ∧
          rs1.getD k zeroRintc = { rs.getD k zeroRintc with
            ExtIntCId := ACPI_BUILD_EXT_INTC_ID aplicId jj % U32 }) := by
  refine ⟨fun plicId j pairs rs h => plicPatchLoop_miss plicId pairs j rs h,
          fun aplicId k pairs rs h => aplicPatchLoop_miss aplicId pairs k rs h,
          ?_, ?_⟩
  · intro plicId pairs rs rs1 h
    have hs := plicPatchLoop_shape plicId pairs 0 rs rs1 h
    refine ⟨hs.1, ?_⟩
    intro k hk
    rcases hs.2 k hk with h1 | ⟨jj, hjj, hjty, hjph, h1⟩
    · exact Or.inl h1
    · right
      refine ⟨jj, hjj, hjty, hjph, ?_⟩
      simpa using h1
  · intro aplicId pairs rs rs1 h
    have hs := aplicPatchLoop_shape aplicId pairs 0 rs rs1 h
    refine ⟨hs.1, ?_⟩
    intro k hk
    rcases hs.2 k hk with h1 | ⟨jj, hjj, hjph, h1⟩
    · exact Or.inl h1
    · right
      refine ⟨jj, hjj, hjph, ?_⟩
      simpa using h1

/-- C7 witness: the amended theorem applied to concrete inputs — a
supervisor-external miss gives EFI_INVALID_PARAMETER for the PLIC and
EFI_NOT_FOUND for the APLIC, and a concrete successful patch preserves the
record count. -/
theorem C7_ext_intc_amended_witness :
    plicPatchLoop 0 0 [(5, 9)] [] = .error .invalidParameter ∧
    aplicPatchLoop 0 0 [(5, 9)] [] = .error .notFound ∧
    ([{ zeroRintc with IntcPhandle := 5, ExtIntCId := 1 }] :
      List CM_RISCV_RINTC_INFO).length =
      ([{ zeroRintc with IntcPhandle := 5 }] : List CM_RISCV_RINTC_INFO).length ∧
    ([{ zeroRintc with IntcPhandle := 5, ExtIntCId := 0 }] :
      List CM_RISCV_RINTC_INFO).length =
      ([{ zeroRintc with IntcPhandle := 5 }] : List CM_RISCV_RINTC_INFO).length := by
  refine ⟨?_, ?_, ?_, ?_⟩
  · exact C7_ext_intc_amended.1 0 0 [(5, 9)] []
      ⟨(5, 9), by decide, by decide, by decide⟩
  · exact C7_ext_intc_amended.2.1 0 0 [(5, 9)] [] ⟨(5, 9), by decide, by decide⟩
  · exact (C7_ext_intc_amended.2.2.1 0 [(5, 9)] [{ zeroRintc with IntcPhandle := 5 }]
      [{ zeroRintc with IntcPhandle := 5, ExtIntCId := 1 }] (by decide)).1
  · exact (C7_ext_intc_amended.2.2.2 0 [(5, 9)] [{ zeroRintc with IntcPhandle := 5 }]
      [{ zeroRintc with IntcPhandle := 5, ExtIntCId := 0 }] (by decide)).1

/-- C2 counterexample: on the concrete input of 65539 PLIC nodes with
riscv,ndev = 65535 the parser succeeds, but instance 65538's GsiBase (65534,
after UINT32 wrap-around) differs from the sum of the NumSources of instances
0..65537 (4295032830), and the claimed ranges of instances 1 and 65538
overlap: both contain GSI 70000.  This falsifies both universal statements of
the claim. -/
theorem C2_gsi_wrap_counterexample :
    exceptIsOk (plicParse
      (List.replicate 65539
        ({ intExt := [(1, 9)], regAddr := 0, regSize := 0, ndev := 65535,
           phandle := 1 } : PlicDtNode))
      [{ zeroRintc with IntcPhandle := 1 }] 0 0) = true ∧
    (plicRecsOf (plicParse
      (List.replicate 65539
        ({ intExt := [(1, 9)], regAddr := 0, regSize := 0, ndev := 65535,
           phandle := 1 } : PlicDtNode))
      [{ zeroRintc with IntcPhandle := 1 }] 0 0)).length = 65539 ∧
    (((plicRecsOf (plicParse
      (List.replicate 65539
        ({ intExt := [(1, 9)], regAddr := 0, regSize := 0, ndev := 65535,
           phandle := 1 } : PlicDtNode))
      [{ zeroRintc with IntcPhandle := 1 }] 0 0)).take 65538).map
        (fun p => p.NumSources)).sum = 4295032830 ∧
    ((plicRecsOf (plicParse
      (List.replicate 65539
        ({ intExt := [(1, 9)], regAddr := 0, regSize := 0, ndev := 65535,
           phandle := 1 } : PlicDtNode))
      [{ zeroRintc with IntcPhandle := 1 }] 0 0)).getD 65538 zeroPlic).GsiBase = 65534 ∧
    (65534 : Nat) ≠ 4295032830 ∧
    ((plicRecsOf (plicParse
      (List.replicate 65539
        ({ intExt := [(1, 9)], regAddr := 0, regSize := 0, ndev := 65535,
           phandle := 1 } : PlicDtNode))
      [{ zeroRintc with IntcPhandle := 1 }] 0 0)).getD 1 zeroPlic).GsiBase ≤ 70000 ∧
    70000 < ((plicRecsOf (plicParse
      (List.replicate 65539
        ({ intExt := [(1, 9)], regAddr := 0, regSize := 0, ndev := 65535,
           phandle := 1 } : PlicDtNode))
      [{ zeroRintc with IntcPhandle := 1 }] 0 0)).getD 1 zeroPlic).GsiBase +
      ((plicRecsOf (plicParse
        (List.replicate 65539
          ({ intExt := [(1, 9)], regAddr := 0, regSize := 0, ndev := 65535,
             phandle := 1 } : PlicDtNode))
        [{ zeroRintc with IntcPhandle := 1 }] 0 0)).getD 1 zeroPlic).NumSources ∧
    ((plicRecsOf (plicParse
      (List.replicate 65539
        ({ intExt := [(1, 9)], regAddr := 0, regSize := 0, ndev := 65535,
           phandle := 1 } : PlicDtNode))
      [{ zeroRintc with IntcPhandle := 1 }] 0 0)).getD 65538 zeroPlic).GsiBase ≤ 70000 ∧
    70000 < ((plicRecsOf (plicParse
      (List.replicate 65539
        ({ intExt := [(1, 9)], regAddr := 0, regSize := 0, ndev := 65535,
           phandle := 1 } : PlicDtNode))
      [{ zeroRintc with IntcPhandle := 1 }] 0 0)).getD 65538 zeroPlic).GsiBase +
      ((plicRecsOf (plicParse
        (List.replicate 65539
          ({ intExt := [(1, 9)], regAddr := 0, regSize := 0, ndev := 65535,
             phandle := 1 } : PlicDtNode))
        [{ zeroRintc with IntcPhandle := 1 }] 0 0)).getD 65538 zeroPlic).NumSources := by
  obtain ⟨rs2, recs, hok, h1, h2, h3, h4, h5, h6, h7, h8⟩ := plic_gsi_wrap_example
  rw [hok]
  exact ⟨rfl, h1, h2, h3, h4, h5, h6, h7, h8⟩

/-- C8 counterexample: a RINTC record carrying a non-NULL EtToken aborts the
whole generation with EFI_UNSUPPORTED — no nested sub-object is ever created
for it and the status is not the claimed EFI_NOT_FOUND — even when the token
dereferences (here token 5 is resolvable in the store). -/
theorem C8_et_unsupported_counterexample :
    CreateTopologyFromApic [5] [{ zeroRintc with EtToken := 5 }] 0 = .error .unsupported ∧
    CreateTopologyFromApic [] [{ zeroRintc with EtToken := 5 }] 0 = .error .unsupported ∧
    (Except.error EFI_STATUS.unsupported : Except EFI_STATUS (List AmlCpuNode)) ≠
      .error .notFound ∧
    (Except.error EFI_STATUS.unsupported : Except EFI_STATUS (List AmlCpuNode)) ≠
      .ok [{ CpuName := 0, Uid := 0, hasCpc := false, hasEt := true }] := by
  decide

/-- C8 (amended): in CreateTopologyFromApic, a NULL CpcToken or EtToken skips
the nested sub-object without error; a non-NULL CpcToken is dereferenced and
the nested _CPC object created, and a CpcToken that fails to dereference
aborts generation with EFI_NOT_FOUND propagated; a non-NULL EtToken, however,
always aborts generation with EFI_UNSUPPORTED (RISC-V ET node generation is
unimplemented), whether or not the token dereferences. -/
theorem C8_topology_amended :
    (∀ (cpcStore : List Nat) (rintcs : List CM_RISCV_RINTC_INFO) (idx : Nat),
      (∀ r ∈ rintcs, r.CpcToken = 0 ∧ r.EtToken = 0) →
      ∃ out, CreateTopologyFromApic cpcStore rintcs idx = .ok out ∧
        out.length = rintcs.length ∧
        ∀ nd ∈ out, nd.hasCpc = false ∧ nd.hasEt = false) ∧
    (∀ (cpcStore : List Nat) (rintcs : List CM_RISCV_RINTC_INFO) (idx : Nat),
      (∀ r ∈ rintcs, r.EtToken = 0) →
      (∀ r ∈ rintcs, r.CpcToken ≠ 0 → r.CpcToken ∈ cpcStore) →
      ∃ out, CreateTopologyFromApic cpcStore rintcs idx = .ok out ∧
        out.length = rintcs.length ∧
        ∀ k, k < rintcs.length →
          ((out.getD k zeroAmlCpu).hasCpc = true ↔
            (rintcs.getD k zeroRintc).CpcToken ≠ 0)) ∧
    (∀ (cpcStore : List Nat) (rintcs : List CM_RISCV_RINTC_INFO) (idx : Nat),
      (∀ r ∈ rintcs, r.EtToken = 0) →
      (∃ r ∈ rintcs, r.CpcToken ≠ 0 ∧ r.CpcToken ∉ cpcStore) →
      CreateTopologyFromApic cpcStore rintcs idx = .error .notFound) ∧
    (∀ (cpcStore : List Nat) (rintcs : List CM_RISCV_RINTC_INFO) (idx : Nat),
      (∀ r ∈ rintcs, r.CpcToken ≠ 0 → r.CpcToken ∈ cpcStore) →
      (∃ r ∈ rintcs, r.EtToken ≠ 0) →
      CreateTopologyFromApic cpcStore rintcs idx = .error .unsupported) := by
  refine ⟨?_, ?_, ?_, ?_⟩
  · intro cpcStore rintcs
    induction rintcs with
    | nil =>
      intro idx _
      exact ⟨[], rfl, rfl, by simp⟩
    | cons r rest ih =>
      intro idx h
      have hr := h r (by simp)
      obtain ⟨out, hout, hlen, hall⟩ := ih (idx + 1) (fun x hx => h x (by simp [hx]))
      refine ⟨CreateAmlCpu idx r :: out, ?_, by simp [hlen], ?_⟩
      · simp [CreateTopologyFromApic, hr.1, hr.2, hout]
      · intro nd hnd
        rcases List.mem_cons.mp hnd with rfl | hnd2
        · exact ⟨rfl, rfl⟩
        · exact hall nd hnd2
  · intro cpcStore rintcs
    induction rintcs with
    | nil =>
      intro idx _ _
      exact ⟨[], rfl, rfl, by simp⟩
    | cons r rest ih =>
      intro idx hEt hCpc
      have hrEt := hEt r (by simp)
      obtain ⟨out, hout, hlen, hiff⟩ := ih (idx + 1)
        (fun x hx => hEt x (by simp [hx])) (fun x hx => hCpc x (by simp [hx]))
      by_cases hc : r.CpcToken = 0
      · refine ⟨CreateAmlCpu idx r :: out, ?_, by simp [hlen], ?_⟩
        · simp [CreateTopologyFromApic, hc, hrEt, hout]
        · intro k hk
          cases k with
          | zero =>
            simp only [List.getD_cons_zero]
            simp [CreateAmlCpu, hc]
          | succ m =>
            simp only [List.getD_cons_succ]
            exact hiff m (by simp only [List.length_cons] at hk; omega)
      · have hmem := hCpc r (by simp) hc
        refine ⟨{ CreateAmlCpu idx r with hasCpc := true } :: out, ?_, by simp [hlen], ?_⟩
        · simp [CreateTopologyFromApic, CreateAmlCpcNode, hc, hrEt, hmem, hout]
        · intro k hk
          cases k with
          | zero =>
            simp only [List.getD_cons_zero]
            simp [CreateAmlCpu, hc]
          | succ m =>
            simp only [List.getD_cons_succ]
            exact hiff m (by simp only [List.length_cons] at hk; omega)
  · intro cpcStore rintcs
    induction rintcs with
    | nil =>
      intro idx _ hex
      simp at hex
    | cons r rest ih =>
      intro idx hEt hex
      have hrEt := hEt r (by simp)
      by_cases hfail : r.CpcToken ≠ 0 ∧ r.CpcToken ∉ cpcStore
      · simp [CreateTopologyFromApic, CreateAmlCpcNode, hfail.1, hfail.2]
      · by_cases hc : r.CpcToken = 0
        · have htail := ih (idx + 1) (fun x hx => hEt x (by simp [hx])) ?_
          · simp [CreateTopologyFromApic, hc, hrEt, htail]
          · obtain ⟨q, hq, hq1, hq2⟩ := hex
            rcases List.mem_cons.mp hq with rfl | hq3
            · exact absurd hc hq1
            · exact ⟨q, hq3, hq1, hq2⟩
        · have hmem : r.CpcToken ∈ cpcStore := by
            by_contra hno
            exact hfail ⟨hc, hno⟩
          have htail := ih (idx + 1) (fun x hx => hEt x (by simp [hx])) ?_
          · simp [CreateTopologyFromApic, CreateAmlCpcNode, hc, hrEt, hmem, htail]
          · obtain ⟨q, hq, hq1, hq2⟩ := hex
            rcases List.mem_cons.mp hq with rfl | hq3
            · exact absurd hmem hq2
            · exact ⟨q, hq3, hq1, hq2⟩
  · intro cpcStore rintcs
    induction rintcs with
    | nil =>
      intro idx _ hex
      simp at hex
    | cons r rest ih =>
      intro idx hCpc hex
      by_cases he : r.EtToken = 0
      · have htail := ih (idx + 1) (fun x hx => hCpc x (by simp [hx])) ?_
        · by_cases hc : r.CpcToken = 0
          · simp [CreateTopologyFromApic, hc, he, htail]
          · have hmem := hCpc r (by simp) hc
            simp [CreateTopologyFromApic, CreateAmlCpcNode, hc, he, hmem, htail]
        · obtain ⟨q, hq, hq1⟩ := hex
          rcases List.mem_cons.mp hq with rfl | hq3
          · exact absurd he hq1
          · exact ⟨q, hq3, hq1⟩
      · by_cases hc : r.CpcToken = 0
        · simp [CreateTopologyFromApic, CreateAmlEtNode, hc, he]
        · have hmem := hCpc r (by simp) hc
          simp [CreateTopologyFromApic, CreateAmlCpcNode, CreateAmlEtNode, hc, he, hmem]

/-- C8 witness: the amended theorem applied to concrete inputs — an
unresolvable CpcToken aborts with NOT_FOUND, a non-NULL EtToken aborts with
UNSUPPORTED even when every CpcToken resolves, and all-NULL or resolvable
CpcToken configurations generate successfully. -/
theorem C8_topology_amended_witness :
    CreateTopologyFromApic [] [{ zeroRintc with CpcToken := 9 }] 0 =
      .error .notFound ∧
    CreateTopologyFromApic [9] [{ zeroRintc with CpcToken := 9, EtToken := 5 }] 0 =
      .error .unsupported ∧
    exceptIsOk (CreateTopologyFromApic [9] [{ zeroRintc with CpcToken := 9 }] 0) =
      true ∧
    exceptIsOk (CreateTopologyFromApic [] [zeroRintc] 0) = true := by
  refine ⟨?_, ?_, ?_, ?_⟩
  · exact C8_topology_amended.2.2.1 [] [{ zeroRintc with CpcToken := 9 }] 0
      (by decide) ⟨{ zeroRintc with CpcToken := 9 }, by decide, by decide, by decide⟩
  · exact C8_topology_amended.2.2.2 [9] [{ zeroRintc with CpcToken := 9, EtToken := 5 }] 0
      (by decide) ⟨{ zeroRintc with CpcToken := 9, EtToken := 5 }, by decide, by decide⟩
  · obtain ⟨out, hout, _, _⟩ := C8_topology_amended.2.1 [9]
      [{ zeroRintc with CpcToken := 9 }] 0 (by decide) (by decide)
    rw [hout]
    rfl
  · obtain ⟨out, hout, _, _⟩ := C8_topology_amended.1 [] [zeroRintc] 0 (by decide)
    rw [hout]
    rfl
